import Mathlib

/-! Srain: server connection state control.

A shallow embedding of `src/core/server_state.c` (the per-server connection
state machine and its reconnect timer) and of `src/sirc_real/sirc.c` (the
transport session: worker thread and main-loop callbacks) together with the
properties the specification states about them.

Conventions of the embedding:

* a C function that mutates `*srv` and calls into the transport or the GLib
  main loop becomes a pure function returning the new server, the list of
  calls it made (in program order) and the diagnostics it logged;
* headers that are not part of the available sources (`core/core.h`,
  `srain.h`, `ret.h`, `i18n.h`) supply types, constants and macros only; what
  they supply is either a field of `Env` or a small inductive type whose doc
  comment says so;
* `int` fields are integers without wrap-around: signed overflow is undefined
  in C, and the properties below are stated for executions without overflow.
-/

namespace Srain

/-! ## Data model -/

/-- Values of `enum SrnServerState`.  The last constructor stands for a value
of the enum's integer type that is none of the six enumerators (the outer
`default:` label of the state machine handles it). -/
inductive SrnServerState where
  | SRN_SERVER_STATE_DISCONNECTED
  | SRN_SERVER_STATE_CONNECTING
  | SRN_SERVER_STATE_CONNECTED
  | SRN_SERVER_STATE_DISCONNECTING
  | SRN_SERVER_STATE_QUITING
  | SRN_SERVER_STATE_RECONNECTING
  | SRN_SERVER_STATE_UNKNOWN (raw : Nat)
  deriving DecidableEq, Repr

/-- Values of `enum SrnServerAction`.  The last constructor stands for a value
of the enum's integer type that is none of the seven enumerators (the inner
`default:` labels handle it). -/
inductive SrnServerAction where
  | SRN_SERVER_ACTION_CONNECT
  | SRN_SERVER_ACTION_CONNECT_FAIL
  | SRN_SERVER_ACTION_CONNECT_FINISH
  | SRN_SERVER_ACTION_DISCONNECT
  | SRN_SERVER_ACTION_QUIT
  | SRN_SERVER_ACTION_RECONNECT
  | SRN_SERVER_ACTION_DISCONNECT_FINISH
  | SRN_SERVER_ACTION_UNKNOWN (raw : Nat)
  deriving DecidableEq, Repr

open SrnServerState SrnServerAction

/-- Modelled from the spec: the result type `SrnRet` and the macros `SRN_OK`,
`SRN_ERR`, `RET_ERR` and `RET_IS_OK` come from `srain.h` / `ret.h`, which are
not among the sources.  The spec distinguishes success, a generic failure, and
a structured failure carrying a message; `RET_ERR fmt arg` keeps the format
string and its single argument as the code passes them. -/
inductive SrnRet where
  | SRN_OK
  | SRN_ERR
  | RET_ERR (fmt : String) (arg : String)
  deriving DecidableEq, Repr

/-- Modelled from the spec: `RET_IS_OK` of `ret.h` (not among the sources);
a result is OK exactly when it is the success value. -/
def RET_IS_OK (ret : SrnRet) : Bool :=
  match ret with
  | .SRN_OK => true
  | _ => false

/-- The part of `srv->addr` the state machine reads. -/
structure SrnServerAddr where
  host : String
  port : Int
  deriving DecidableEq, Repr

/-- The fields of `SrnServer` that `server_state.c` reads or writes.
`is_valid` is the value `srn_server_is_valid(srv)` returns for this server
(the function is defined outside the available sources). -/
structure SrnServer where
  is_valid : Bool
  name : String
  state : SrnServerState
  last_action : SrnServerAction
  addr : SrnServerAddr
  reconn_interval : Int
  reconn_timer : Nat
  deriving DecidableEq, Repr

/-- What the missing headers supply to `server_state.c`: the constant
`SRN_SERVER_RECONN_STEP` and the translation macro `_()`. -/
structure Env where
  SRN_SERVER_RECONN_STEP : Int
  gettext : String → String

/-- Calls that leave `server_state.c`: into the transport session (`sirc_*`),
into the GLib main loop and into the application.  `g_timeout_add` is always
called with `srn_server_reconnect_timeout` as its callback and `g_idle_add`
with `idle_to_rm_server`; both get `srv` as user data.
`srn_application_rm_server` is called on the default application with
`srv`. -/
inductive Effect where
  | sirc_connect (host : String) (port : Int)
  | sirc_cancel_connect
  | sirc_disconnect
  | sirc_cmd_quit
  | g_timeout_add (interval : Int)
  | g_source_remove (tag : Nat)
  | g_idle_add_idle_to_rm_server
  | srn_application_rm_server
  deriving DecidableEq, Repr

/-- Diagnostics written by `server_state.c`.  `LOG_FR` and `WARN_FR` carry
the arguments of the format string: the server name, the strings for the
current state, the action and (for `LOG_FR`) the next state, where `none` is
the `NULL` that the `to_string` functions return for a value outside the enum,
and (for `WARN_FR`) the result whose message `RET_MSG` looks up. -/
inductive Diag where
  | g_return_val_if_fail
  | g_warn_if_reached
  | LOG_FR (name : String) (cur : Option String) (action : Option String)
      (next : Option String)
  | WARN_FR (name : String) (cur : Option String) (action : Option String) (ret : SrnRet)
  deriving DecidableEq, Repr

/-- The function `srn_server_state_to_string` (lines 252-270): the name of the
enumerator and no diagnostic, or, for a value outside the enum, `NULL` after a
`g_warn_if_reached`. -/
def srn_server_state_to_string : SrnServerState → Option String × List Diag
  | SRN_SERVER_STATE_CONNECTING => (some "SRN_SERVER_STATE_CONNECTING", [])
  | SRN_SERVER_STATE_CONNECTED => (some "SRN_SERVER_STATE_CONNECTED", [])
  | SRN_SERVER_STATE_DISCONNECTING => (some "SRN_SERVER_STATE_DISCONNECTING", [])
  | SRN_SERVER_STATE_QUITING => (some "SRN_SERVER_STATE_QUITING", [])
  | SRN_SERVER_STATE_RECONNECTING => (some "SRN_SERVER_STATE_RECONNECTING", [])
  | SRN_SERVER_STATE_DISCONNECTED => (some "SRN_SERVER_STATE_DISCONNECTED", [])
  | SRN_SERVER_STATE_UNKNOWN _ => (none, [Diag.g_warn_if_reached])

/-- The function `srn_server_action_to_string` (lines 272-292): the name of
the enumerator and no diagnostic, or, for a value outside the enum, `NULL`
after a `g_warn_if_reached`. -/
def srn_server_action_to_string : SrnServerAction → Option String × List Diag
  | SRN_SERVER_ACTION_CONNECT => (some "SRN_SERVER_ACTION_CONNECT", [])
  | SRN_SERVER_ACTION_CONNECT_FAIL => (some "SRN_SERVER_ACTION_CONNECT_FAIL", [])
  | SRN_SERVER_ACTION_CONNECT_FINISH => (some "SRN_SERVER_ACTION_CONNECT_FINISH", [])
  | SRN_SERVER_ACTION_DISCONNECT => (some "SRN_SERVER_ACTION_DISCONNECT", [])
  | SRN_SERVER_ACTION_QUIT => (some "SRN_SERVER_ACTION_QUIT", [])
  | SRN_SERVER_ACTION_RECONNECT => (some "SRN_SERVER_ACTION_RECONNECT", [])
  | SRN_SERVER_ACTION_DISCONNECT_FINISH => (some "SRN_SERVER_ACTION_DISCONNECT_FINISH", [])
  | SRN_SERVER_ACTION_UNKNOWN _ => (none, [Diag.g_warn_if_reached])

/-- The server and the local variables of `srn_server_state_transfrom` while
its body runs, with the calls and diagnostics emitted so far. -/
structure Frame where
  srv : SrnServer
  free : Bool
  ret : SrnRet
  next_state : SrnServerState
  effects : List Effect
  log : List Diag
  deriving DecidableEq, Repr

/-- What a call of `srn_server_state_transfrom` leaves behind. -/
structure Outcome where
  ret : SrnRet
  srv : SrnServer
  effects : List Effect
  log : List Diag
  deriving DecidableEq, Repr

/-! ## The state machine -/

/-- The `switch (srv->state)` statement of `srn_server_state_transfrom`
(lines 69-222).  `state` is the value of `srv->state` the switch is entered
with, `tid` is the source id `g_timeout_add` returns if this call adds a
timer, and `unallowed` is the local of that name. -/
def state_machine (env : Env) (tid : Nat) (unallowed : String) (f : Frame)
    (state : SrnServerState) (action : SrnServerAction) : Frame :=
  match state with
  | SRN_SERVER_STATE_DISCONNECTED =>
    match action with
    | SRN_SERVER_ACTION_RECONNECT | SRN_SERVER_ACTION_CONNECT =>
      { f with
        effects := f.effects ++ [Effect.sirc_connect f.srv.addr.host f.srv.addr.port]
        next_state := SRN_SERVER_STATE_CONNECTING }
    | SRN_SERVER_ACTION_DISCONNECT =>
      { f with ret := SrnRet.RET_ERR unallowed (env.gettext "Server is already disconnected") }
    | SRN_SERVER_ACTION_QUIT =>
      { f with free := true, next_state := SRN_SERVER_STATE_DISCONNECTED }
    | _ =>
      { f with ret := SrnRet.SRN_ERR, log := f.log ++ [Diag.g_warn_if_reached] }
  | SRN_SERVER_STATE_CONNECTING =>
    match action with
    | SRN_SERVER_ACTION_CONNECT =>
      { f with ret := SrnRet.RET_ERR unallowed (env.gettext
          "Hold on, srain is connecting to the server, please do not repeat the action") }
    | SRN_SERVER_ACTION_CONNECT_FAIL =>
      { f with
        effects := f.effects ++ [Effect.g_timeout_add f.srv.reconn_interval]
        srv := { f.srv with reconn_timer := tid }
        next_state := SRN_SERVER_STATE_RECONNECTING }
    | SRN_SERVER_ACTION_CONNECT_FINISH =>
      { f with
        srv := { f.srv with reconn_interval := env.SRN_SERVER_RECONN_STEP }
        next_state := SRN_SERVER_STATE_CONNECTED }
    | SRN_SERVER_ACTION_DISCONNECT =>
      { f with
        effects := f.effects ++ [Effect.sirc_cancel_connect]
        next_state := SRN_SERVER_STATE_DISCONNECTING }
    | SRN_SERVER_ACTION_QUIT =>
      { f with
        effects := f.effects ++ [Effect.sirc_cancel_connect]
        next_state := SRN_SERVER_STATE_QUITING }
    | _ =>
      { f with ret := SrnRet.SRN_ERR, log := f.log ++ [Diag.g_warn_if_reached] }
  | SRN_SERVER_STATE_CONNECTED =>
    match action with
    | SRN_SERVER_ACTION_CONNECT =>
      { f with ret := SrnRet.RET_ERR unallowed (env.gettext "Server is already connected") }
    | SRN_SERVER_ACTION_DISCONNECT =>
      { f with
        effects := f.effects ++ [Effect.sirc_disconnect]
        next_state := SRN_SERVER_STATE_DISCONNECTING }
    | SRN_SERVER_ACTION_RECONNECT =>
      { f with
        effects := f.effects ++ [Effect.sirc_disconnect]
        next_state := SRN_SERVER_STATE_CONNECTED }
    | SRN_SERVER_ACTION_QUIT =>
      { f with
        effects := f.effects ++ [Effect.sirc_cmd_quit]
        next_state := SRN_SERVER_STATE_QUITING }
    | SRN_SERVER_ACTION_DISCONNECT_FINISH =>
      { f with
        effects := f.effects ++ [Effect.g_timeout_add f.srv.reconn_interval]
        srv := { f.srv with reconn_timer := tid }
        next_state := SRN_SERVER_STATE_RECONNECTING }
    | _ =>
      { f with ret := SrnRet.SRN_ERR, log := f.log ++ [Diag.g_warn_if_reached] }
  | SRN_SERVER_STATE_DISCONNECTING =>
    match action with
    | SRN_SERVER_ACTION_CONNECT =>
      { f with ret := SrnRet.RET_ERR unallowed (env.gettext "Server is disconnecting") }
    | SRN_SERVER_ACTION_CONNECT_FAIL =>
      { f with ret := SrnRet.RET_ERR unallowed (env.gettext "Server is disconnecting") }
    | SRN_SERVER_ACTION_DISCONNECT =>
      { f with ret := SrnRet.RET_ERR unallowed (env.gettext "Server is disconnecting") }
    | SRN_SERVER_ACTION_QUIT =>
      { f with ret := SrnRet.RET_ERR unallowed (env.gettext "Server is disconnecting") }
    | SRN_SERVER_ACTION_DISCONNECT_FINISH =>
      { f with next_state := SRN_SERVER_STATE_DISCONNECTED }
    | _ =>
      { f with ret := SrnRet.SRN_ERR, log := f.log ++ [Diag.g_warn_if_reached] }
  | SRN_SERVER_STATE_QUITING =>
    match action with
    | SRN_SERVER_ACTION_CONNECT =>
      { f with ret := SrnRet.RET_ERR unallowed (env.gettext "Quitting the server") }
    | SRN_SERVER_ACTION_CONNECT_FAIL =>
      { f with free := true, next_state := SRN_SERVER_STATE_DISCONNECTED }
    | SRN_SERVER_ACTION_DISCONNECT =>
      { f with ret := SrnRet.RET_ERR unallowed (env.gettext "Quitting the server") }
    | SRN_SERVER_ACTION_QUIT =>
      { f with
        effects := f.effects ++ [Effect.sirc_cancel_connect]
        next_state := SRN_SERVER_STATE_QUITING }
    | SRN_SERVER_ACTION_DISCONNECT_FINISH =>
      { f with free := true, next_state := SRN_SERVER_STATE_DISCONNECTED }
    | _ =>
      { f with ret := SrnRet.SRN_ERR, log := f.log ++ [Diag.g_warn_if_reached] }
  | SRN_SERVER_STATE_RECONNECTING =>
    match action with
    | SRN_SERVER_ACTION_CONNECT =>
      { f with
        effects := f.effects ++ [Effect.sirc_connect f.srv.addr.host f.srv.addr.port]
        next_state := SRN_SERVER_STATE_CONNECTING }
    | SRN_SERVER_ACTION_DISCONNECT =>
      { f with
        effects := f.effects ++ [Effect.g_source_remove f.srv.reconn_timer]
        srv := { f.srv with reconn_timer := 0 }
        next_state := SRN_SERVER_STATE_DISCONNECTED }
    | SRN_SERVER_ACTION_QUIT =>
      { f with
        effects := f.effects ++ [Effect.g_source_remove f.srv.reconn_timer]
        srv := { f.srv with reconn_timer := 0 }
        free := true
        next_state := SRN_SERVER_STATE_DISCONNECTED }
    | _ =>
      { f with ret := SrnRet.SRN_ERR, log := f.log ++ [Diag.g_warn_if_reached] }
  | SRN_SERVER_STATE_UNKNOWN _ =>
    { f with ret := SrnRet.SRN_ERR, log := f.log ++ [Diag.g_warn_if_reached] }

/-- The function `srn_server_state_transfrom` (lines 54-250): the validity
guard, the initialisation of the locals, the state machine, the commit of
`state` and `last_action` when the result is OK, and the deferred removal.
The arguments of `LOG_FR` and `WARN_FR` are evaluated before the line is
written, so the warnings of the `to_string` calls precede it in the log; C
leaves the order among the arguments open, and the warnings are all the same
diagnostic, so the log does not depend on that order. -/
def srn_server_state_transfrom (env : Env) (tid : Nat) (srv : SrnServer)
    (action : SrnServerAction) : Outcome :=
  if srv.is_valid = false then
    { ret := SrnRet.SRN_ERR, srv := srv, effects := [], log := [Diag.g_return_val_if_fail] }
  else
    let unallowed := env.gettext "Unallowed action: %1$s"
    let cur_state := srv.state
    let f0 : Frame :=
      { srv := srv, free := false, ret := SrnRet.SRN_OK, next_state := srv.state,
        effects := [], log := [] }
    let f1 := state_machine env tid unallowed f0 srv.state action
    let f2 : Frame :=
      if RET_IS_OK f1.ret = true then
        { f1 with
          log := f1.log ++
            (srn_server_state_to_string cur_state).2 ++
            (srn_server_action_to_string action).2 ++
            (srn_server_state_to_string f1.next_state).2 ++
            [Diag.LOG_FR f1.srv.name
              (srn_server_state_to_string cur_state).1
              (srn_server_action_to_string action).1
              (srn_server_state_to_string f1.next_state).1]
          srv := { f1.srv with state := f1.next_state, last_action := action } }
      else
        { f1 with
          log := f1.log ++
            (srn_server_state_to_string cur_state).2 ++
            (srn_server_action_to_string action).2 ++
            [Diag.WARN_FR f1.srv.name
              (srn_server_state_to_string cur_state).1
              (srn_server_action_to_string action).1
              f1.ret] }
    let f3 : Frame :=
      if f2.free = true then
        { f2 with effects := f2.effects ++ [Effect.g_idle_add_idle_to_rm_server] }
      else f2
    { ret := f3.ret, srv := f3.srv, effects := f3.effects, log := f3.log }

/-- The GLib constant `G_SOURCE_REMOVE` (that is `FALSE`): the source is not
called again. -/
def G_SOURCE_REMOVE : Bool := false

/-- What a firing of the reconnect timer leaves behind: the handler's return
value and the server, calls and diagnostics of the nested transition. -/
structure TimeoutOutcome where
  result : Bool
  ret : SrnRet
  srv : SrnServer
  effects : List Effect
  log : List Diag
  deriving DecidableEq, Repr

/-- The timer callback `srn_server_reconnect_timeout` (lines 294-302).  The
result of the nested transition is dropped by the C code; it is kept in `ret`
for the statements below. -/
def srn_server_reconnect_timeout (env : Env) (tid : Nat) (srv : SrnServer) : TimeoutOutcome :=
  let srv1 : SrnServer :=
    { srv with reconn_interval := srv.reconn_interval + env.SRN_SERVER_RECONN_STEP }
  let out := srn_server_state_transfrom env tid srv1 SRN_SERVER_ACTION_CONNECT
  { result := G_SOURCE_REMOVE, ret := out.ret, srv := out.srv, effects := out.effects,
    log := out.log }

/-! ## Sequences of transitions and timer firings -/

/-- One thing that happens to a server on the dispatcher: a call of
`srn_server_state_transfrom` with an action, or a firing of the reconnect
timer.  `tid` is the source id a `g_timeout_add` made during the event
returns. -/
inductive Event where
  | transfrom (action : SrnServerAction) (tid : Nat)
  | reconnect_timeout (tid : Nat)
  deriving DecidableEq, Repr

/-- The server after one event. -/
def Event.apply (env : Env) (srv : SrnServer) : Event → SrnServer
  | Event.transfrom action tid => (srn_server_state_transfrom env tid srv action).srv
  | Event.reconnect_timeout tid => (srn_server_reconnect_timeout env tid srv).srv

/-- Whether the event is a `ConnectFinish` that the state machine accepts in
the given server. -/
def Event.accepts_connect_finish (env : Env) (srv : SrnServer) : Event → Bool
  | Event.transfrom SRN_SERVER_ACTION_CONNECT_FINISH tid =>
    RET_IS_OK (srn_server_state_transfrom env tid srv SRN_SERVER_ACTION_CONNECT_FINISH).ret
  | _ => false

/-- The server after a finite sequence of events. -/
def run (env : Env) (srv : SrnServer) : List Event → SrnServer
  | [] => srv
  | e :: es => run env (e.apply env srv) es

/-- No event of the sequence is an accepted `ConnectFinish`. -/
def no_connect_finish_accepted (env : Env) (srv : SrnServer) : List Event → Bool
  | [] => true
  | e :: es =>
    !(e.accepts_connect_finish env srv) && no_connect_finish_accepted env (e.apply env srv) es

/-! ## The specification's transition table -/

/-- One accepting row of the table of section 4.2, read for a given server:
the next state, the calls the side effect amounts to, and the values of the
two reconnect fields after the transition. -/
structure Row where
  next : SrnServerState
  calls : List Effect
  reconn_interval : Int
  reconn_timer : Nat
  deriving DecidableEq, Repr

/-- The accepting rows of the transition table of section 4.2, written from
the specification: "start transport connect" is `sirc_connect` to the server
address, "mark for deferred removal" is the scheduling of the removal task,
"schedule reconnect timer at current interval" is `g_timeout_add` with the
current `reconn_interval` (the handle is kept in `reconn_timer`), "reset
interval to base step" stores `SRN_SERVER_RECONN_STEP`, "cancel in-flight
connect" is `sirc_cancel_connect`, "close transport" is `sirc_disconnect`,
"send protocol quit notice" is `sirc_cmd_quit`, and "cancel pending reconnect
timer" is `g_source_remove` of the handle, which is then unset. -/
def transition_table (env : Env) (tid : Nat) (srv : SrnServer) :
    SrnServerState → SrnServerAction → Option Row
  | SRN_SERVER_STATE_DISCONNECTED, SRN_SERVER_ACTION_CONNECT
  | SRN_SERVER_STATE_DISCONNECTED, SRN_SERVER_ACTION_RECONNECT
  | SRN_SERVER_STATE_RECONNECTING, SRN_SERVER_ACTION_CONNECT =>
    some { next := SRN_SERVER_STATE_CONNECTING
           calls := [Effect.sirc_connect srv.addr.host srv.addr.port]
           reconn_interval := srv.reconn_interval, reconn_timer := srv.reconn_timer }
  | SRN_SERVER_STATE_DISCONNECTED, SRN_SERVER_ACTION_QUIT
  | SRN_SERVER_STATE_QUITING, SRN_SERVER_ACTION_CONNECT_FAIL
  | SRN_SERVER_STATE_QUITING, SRN_SERVER_ACTION_DISCONNECT_FINISH =>
    some { next := SRN_SERVER_STATE_DISCONNECTED
           calls := [Effect.g_idle_add_idle_to_rm_server]
           reconn_interval := srv.reconn_interval, reconn_timer := srv.reconn_timer }
  | SRN_SERVER_STATE_CONNECTING, SRN_SERVER_ACTION_CONNECT_FAIL
  | SRN_SERVER_STATE_CONNECTED, SRN_SERVER_ACTION_DISCONNECT_FINISH =>
    some { next := SRN_SERVER_STATE_RECONNECTING
           calls := [Effect.g_timeout_add srv.reconn_interval]
           reconn_interval := srv.reconn_interval, reconn_timer := tid }
  | SRN_SERVER_STATE_CONNECTING, SRN_SERVER_ACTION_CONNECT_FINISH =>
    some { next := SRN_SERVER_STATE_CONNECTED
           calls := []
           reconn_interval := env.SRN_SERVER_RECONN_STEP, reconn_timer := srv.reconn_timer }
  | SRN_SERVER_STATE_CONNECTING, SRN_SERVER_ACTION_DISCONNECT =>
    some { next := SRN_SERVER_STATE_DISCONNECTING
           calls := [Effect.sirc_cancel_connect]
           reconn_interval := srv.reconn_interval, reconn_timer := srv.reconn_timer }
  | SRN_SERVER_STATE_CONNECTING, SRN_SERVER_ACTION_QUIT
  | SRN_SERVER_STATE_QUITING, SRN_SERVER_ACTION_QUIT =>
    some { next := SRN_SERVER_STATE_QUITING
           calls := [Effect.sirc_cancel_connect]
           reconn_interval := srv.reconn_interval, reconn_timer := srv.reconn_timer }
  | SRN_SERVER_STATE_CONNECTED, SRN_SERVER_ACTION_DISCONNECT =>
    some { next := SRN_SERVER_STATE_DISCONNECTING
           calls := [Effect.sirc_disconnect]
           reconn_interval := srv.reconn_interval, reconn_timer := srv.reconn_timer }
  | SRN_SERVER_STATE_CONNECTED, SRN_SERVER_ACTION_RECONNECT =>
    some { next := SRN_SERVER_STATE_CONNECTED
           calls := [Effect.sirc_disconnect]
           reconn_interval := srv.reconn_interval, reconn_timer := srv.reconn_timer }
  | SRN_SERVER_STATE_CONNECTED, SRN_SERVER_ACTION_QUIT =>
    some { next := SRN_SERVER_STATE_QUITING
           calls := [Effect.sirc_cmd_quit]
           reconn_interval := srv.reconn_interval, reconn_timer := srv.reconn_timer }
  | SRN_SERVER_STATE_DISCONNECTING, SRN_SERVER_ACTION_DISCONNECT_FINISH =>
    some { next := SRN_SERVER_STATE_DISCONNECTED
           calls := []
           reconn_interval := srv.reconn_interval, reconn_timer := srv.reconn_timer }
  | SRN_SERVER_STATE_RECONNECTING, SRN_SERVER_ACTION_DISCONNECT =>
    some { next := SRN_SERVER_STATE_DISCONNECTED
           calls := [Effect.g_source_remove srv.reconn_timer]
           reconn_interval := srv.reconn_interval, reconn_timer := 0 }
  | SRN_SERVER_STATE_RECONNECTING, SRN_SERVER_ACTION_QUIT =>
    some { next := SRN_SERVER_STATE_DISCONNECTED
           calls := [Effect.g_source_remove srv.reconn_timer,
                     Effect.g_idle_add_idle_to_rm_server]
           reconn_interval := srv.reconn_interval, reconn_timer := 0 }
  | _, _ => none

/-- The user-facing error rows of the table of section 4.2 with the
explanation each carries (the message identifier handed to `_()`). -/
def unallowed_explanation : SrnServerState → SrnServerAction → Option String
  | SRN_SERVER_STATE_DISCONNECTED, SRN_SERVER_ACTION_DISCONNECT =>
    some "Server is already disconnected"
  | SRN_SERVER_STATE_CONNECTING, SRN_SERVER_ACTION_CONNECT =>
    some "Hold on, srain is connecting to the server, please do not repeat the action"
  | SRN_SERVER_STATE_CONNECTED, SRN_SERVER_ACTION_CONNECT =>
    some "Server is already connected"
  | SRN_SERVER_STATE_QUITING, SRN_SERVER_ACTION_CONNECT
  | SRN_SERVER_STATE_QUITING, SRN_SERVER_ACTION_DISCONNECT =>
    some "Quitting the server"
  | _, _ => none

/-- The pairs of a defined state and a defined action that the table of
section 4.2 does not list (the row "Disconnecting, any other action" covers
every action in `Disconnecting`). -/
def unlisted_pair : SrnServerState → SrnServerAction → Bool
  | SRN_SERVER_STATE_DISCONNECTED, SRN_SERVER_ACTION_CONNECT_FAIL
  | SRN_SERVER_STATE_DISCONNECTED, SRN_SERVER_ACTION_CONNECT_FINISH
  | SRN_SERVER_STATE_DISCONNECTED, SRN_SERVER_ACTION_DISCONNECT_FINISH
  | SRN_SERVER_STATE_CONNECTING, SRN_SERVER_ACTION_DISCONNECT_FINISH
  | SRN_SERVER_STATE_CONNECTING, SRN_SERVER_ACTION_RECONNECT
  | SRN_SERVER_STATE_CONNECTED, SRN_SERVER_ACTION_CONNECT_FAIL
  | SRN_SERVER_STATE_CONNECTED, SRN_SERVER_ACTION_CONNECT_FINISH
  | SRN_SERVER_STATE_QUITING, SRN_SERVER_ACTION_CONNECT_FINISH
  | SRN_SERVER_STATE_QUITING, SRN_SERVER_ACTION_RECONNECT
  | SRN_SERVER_STATE_RECONNECTING, SRN_SERVER_ACTION_CONNECT_FAIL
  | SRN_SERVER_STATE_RECONNECTING, SRN_SERVER_ACTION_CONNECT_FINISH
  | SRN_SERVER_STATE_RECONNECTING, SRN_SERVER_ACTION_DISCONNECT_FINISH
  | SRN_SERVER_STATE_RECONNECTING, SRN_SERVER_ACTION_RECONNECT => true
  | _, _ => false

/-- The invariant the specification states for the reconnect timer: the
handle is set (non-zero) if and only if the state is `Reconnecting`. -/
def timer_invariant (srv : SrnServer) : Prop :=
  srv.reconn_timer ≠ 0 ↔ srv.state = SRN_SERVER_STATE_RECONNECTING

instance (srv : SrnServer) : Decidable (timer_invariant srv) :=
  inferInstanceAs
    (Decidable (srv.reconn_timer ≠ 0 ↔ srv.state = SRN_SERVER_STATE_RECONNECTING))

/-! ## Deferred removal -/

/-- What a run of the idle callback `idle_to_rm_server` leaves behind. -/
structure RemovalOutcome where
  result : Bool
  effects : List Effect
  log : List Diag
  deriving DecidableEq, Repr

/-- The idle callback `idle_to_rm_server` (lines 304-313): it checks that the
server is still valid and then removes it from the default application. -/
def idle_to_rm_server (srv : SrnServer) : RemovalOutcome :=
  if srv.is_valid = false then
    { result := G_SOURCE_REMOVE, effects := [], log := [Diag.g_return_val_if_fail] }
  else
    { result := G_SOURCE_REMOVE, effects := [Effect.srn_application_rm_server], log := [] }

/-- The four pairs after which the specification schedules the removal of the
server: `Disconnected` + `Quit`, `Quiting` + `ConnectFail`, `Quiting` +
`DisconnectFinish` and `Reconnecting` + `Quit`. -/
def removal_pair : SrnServerState → SrnServerAction → Bool
  | SRN_SERVER_STATE_DISCONNECTED, SRN_SERVER_ACTION_QUIT
  | SRN_SERVER_STATE_QUITING, SRN_SERVER_ACTION_CONNECT_FAIL
  | SRN_SERVER_STATE_QUITING, SRN_SERVER_ACTION_DISCONNECT_FINISH
  | SRN_SERVER_STATE_RECONNECTING, SRN_SERVER_ACTION_QUIT => true
  | _, _ => false

/-! ## Transport connects along a sequence of events -/

/-- The result of one event. -/
def Event.ret (env : Env) (srv : SrnServer) : Event → SrnRet
  | Event.transfrom action tid => (srn_server_state_transfrom env tid srv action).ret
  | Event.reconnect_timeout tid => (srn_server_reconnect_timeout env tid srv).ret

/-- The calls one event makes. -/
def Event.effects (env : Env) (srv : SrnServer) : Event → List Effect
  | Event.transfrom action tid => (srn_server_state_transfrom env tid srv action).effects
  | Event.reconnect_timeout tid => (srn_server_reconnect_timeout env tid srv).effects

/-- Whether a call is `sirc_connect`. -/
def Effect.is_sirc_connect : Effect → Bool
  | Effect.sirc_connect _ _ => true
  | _ => false

/-- Whether the event starts a transport connect in the given server. -/
def Event.starts_connect (env : Env) (srv : SrnServer) (e : Event) : Bool :=
  (e.effects env srv).any Effect.is_sirc_connect

/-- Whether the event is a `ConnectFail` or a `DisconnectFinish` that the
state machine accepts in the given server. -/
def Event.accepts_worker_end (env : Env) (srv : SrnServer) : Event → Bool
  | Event.transfrom SRN_SERVER_ACTION_CONNECT_FAIL tid =>
    RET_IS_OK (srn_server_state_transfrom env tid srv SRN_SERVER_ACTION_CONNECT_FAIL).ret
  | Event.transfrom SRN_SERVER_ACTION_DISCONNECT_FINISH tid =>
    RET_IS_OK (srn_server_state_transfrom env tid srv SRN_SERVER_ACTION_DISCONNECT_FINISH).ret
  | _ => false

/-- Some event of the sequence is an accepted `ConnectFail` or
`DisconnectFinish`. -/
def worker_end_accepted (env : Env) (srv : SrnServer) : List Event → Bool
  | [] => false
  | e :: es => e.accepts_worker_end env srv || worker_end_accepted env (e.apply env srv) es

/-- The states in which a transport connect has been started and no
`ConnectFail` or `DisconnectFinish` has been accepted since. -/
def SrnServerState.in_session : SrnServerState → Bool
  | SRN_SERVER_STATE_CONNECTING
  | SRN_SERVER_STATE_CONNECTED
  | SRN_SERVER_STATE_DISCONNECTING
  | SRN_SERVER_STATE_QUITING => true
  | _ => false

/-- A sequence of fail/fire rounds: in each round `ConnectFail` is applied and
then the reconnect timer fires; the list gives the timer handle of each
round. -/
def fail_fire_rounds : List Nat → List Event
  | [] => []
  | tid :: tids =>
    Event.transfrom SRN_SERVER_ACTION_CONNECT_FAIL tid ::
      Event.reconnect_timeout tid :: fail_fire_rounds tids

/-! ## The transport session

The embedding of `src/sirc_real/sirc.c`.  A session is shared between the
worker thread (the `th_` functions) and the GLib main loop (the `idle_`
functions).  Each C function becomes a function on the session; what a
blocking call into the socket layer returns is an argument of the function
that makes the call.  The log macros `ERR_FR` and `DBG_FR` only write
diagnostics and are left out. -/

/-- Modelled from the spec: the parsed result of one line, "a command, a
source, and an ordered list of parameters" (the type is declared in a header
that is not among the sources). -/
structure SircMessage where
  command : String
  source : String
  params : List String
  deriving DecidableEq, Repr

/-- What `sirc.c` takes from files that are not among the sources: the integer
result codes `SRN_OK` and `SRN_ERR` of `srain.h`, and the line parser
`sirc_parse`, which returns a result code and fills the message it is given. -/
structure SircEnv where
  SRN_OK : Int
  SRN_ERR : Int
  sirc_parse : String → Int × SircMessage

/-- The fields of `struct _SircSession` that the worker and the main loop
share: the descriptor, the contents of the receive buffer, and whether the
buffer lock `mutex` is held.  `events` and `ctx` are only handed on to the
callbacks. -/
structure SircSession where
  fd : Int
  buf : String
  mutex : Bool
  deriving DecidableEq, Repr

/-- The three callbacks `sirc.c` hands to the main loop. -/
inductive IdleFunc where
  | idle_sirc_recv
  | idle_sirc_on_connect
  | idle_sirc_on_disconnect
  deriving DecidableEq, Repr

/-- GLib priorities of idle sources. -/
inductive Priority where
  | G_PRIORITY_HIGH_IDLE
  | G_PRIORITY_DEFAULT_IDLE
  deriving DecidableEq, Repr

/-- One source added with `g_idle_add_full`; the user data is always the
session. -/
structure IdleSource where
  priority : Priority
  func : IdleFunc
  deriving DecidableEq, Repr

/-- Calls the idle callbacks make out of `sirc.c`: the message handler and the
two event callbacks of the session. -/
inductive SircCall where
  | sirc_event_hdr (imsg : SircMessage)
  | events_connect (event : String)
  | events_disconnect
  deriving DecidableEq, Repr

/-- What one call of `sck_readline` does: the value it returns and the
contents it leaves in the buffer. -/
structure Readline where
  ret : Int
  buf : String
  deriving DecidableEq, Repr

/-- The arguments `sirc_connect` copies for the worker; the session pointer of
`ThreadData` is the shared session. -/
structure ThreadData where
  host : String
  port : Int
  deriving DecidableEq, Repr

/-- The result of `th_sirc_recv`. -/
structure RecvOutcome where
  ret : Int
  sirc : SircSession
  idle : List IdleSource
  deriving DecidableEq, Repr

/-- The result of `th_sirc_connect` up to its last statement:
`enters_th_sirc_proc` tells whether control reaches the call of
`th_sirc_proc` (line 147). -/
structure ConnectOutcome where
  sirc : SircSession
  idle : List IdleSource
  enters_th_sirc_proc : Bool
  deriving DecidableEq, Repr

/-- The result of an idle callback: its return value, the session, the calls
it made and the sources it added. -/
structure IdleOutcome where
  result : Bool
  sirc : SircSession
  calls : List SircCall
  idle : List IdleSource
  deriving DecidableEq, Repr

/-- The C constant `FALSE`; an idle callback that returns it is not called
again. -/
def FALSE : Bool := false

/-- The function `sirc_new_session` (lines 55-68) for a non-null `events`:
the descriptor is -1, the buffer is zeroed and the lock is free. -/
def sirc_new_session : SircSession :=
  { fd := -1, buf := "", mutex := false }

/-- The call `g_mutex_lock(&sirc->mutex)`: it returns, with the lock held,
only when the lock is free; `none` stands for a call that does not return. -/
def g_mutex_lock (sirc : SircSession) : Option SircSession :=
  if sirc.mutex = true then none else some { sirc with mutex := true }

/-- The call `g_mutex_unlock(&sirc->mutex)`. -/
def g_mutex_unlock (sirc : SircSession) : SircSession :=
  { sirc with mutex := false }

/-- The function `sirc_connect` (lines 104-116): the three guards, then one
worker is spawned with a copy of the arguments.  The function returns nothing;
the result lists the workers it has spawned. -/
def sirc_connect (sirc : Option SircSession) (host : Option String) (port : Int) :
    List ThreadData :=
  match sirc with
  | none => []
  | some _ =>
    match host with
    | none => []
    | some h => if port > 0 then [{ host := h, port := port }] else []

/-- The function `sirc_disconnect` (lines 118-123) for a non-null session:
the descriptor is closed and set to -1. -/
def sirc_disconnect (sirc : SircSession) : SircSession :=
  { sirc with fd := -1 }

/-- The function `th_sirc_connect` (lines 129-148); `sock` is what
`sck_get_socket` returns. -/
def th_sirc_connect (sirc : SircSession) (sock : Int) : ConnectOutcome :=
  let sirc1 : SircSession := { sirc with fd := sock }
  if sirc1.fd < 0 then
    { sirc := sirc1
      idle := [{ priority := Priority.G_PRIORITY_HIGH_IDLE,
                 func := IdleFunc.idle_sirc_on_disconnect }]
      enters_th_sirc_proc := false }
  else
    { sirc := sirc1
      idle := [{ priority := Priority.G_PRIORITY_HIGH_IDLE,
                 func := IdleFunc.idle_sirc_on_connect }]
      enters_th_sirc_proc := true }

/-- The statements of `th_sirc_recv` after the lock has been taken (lines
168-181); `rd` is what the call of `sck_readline` does. -/
def th_sirc_recv_locked (senv : SircEnv) (sirc : SircSession) (rd : Readline) : RecvOutcome :=
  let ret := rd.ret
  let sirc1 : SircSession := { sirc with buf := rd.buf }
  if ret ≠ senv.SRN_ERR then
    { ret := senv.SRN_OK
      sirc := sirc1
      idle := [{ priority := Priority.G_PRIORITY_HIGH_IDLE, func := IdleFunc.idle_sirc_recv }] }
  else
    { ret := ret
      sirc := g_mutex_unlock sirc1
      idle := [{ priority := Priority.G_PRIORITY_HIGH_IDLE,
                 func := IdleFunc.idle_sirc_on_disconnect }] }

/-- The function `th_sirc_recv` (lines 166-182): take the lock, read a line,
schedule the callback.  The result is `none` when the lock is held at entry,
as the call of `g_mutex_lock` does not return then. -/
def th_sirc_recv (senv : SircEnv) (sirc : SircSession) (rd : Readline) : Option RecvOutcome :=
  match g_mutex_lock sirc with
  | none => none
  | some locked => some (th_sirc_recv_locked senv locked rd)

/-- The two exit tests of the loop of `th_sirc_proc` (lines 155-162), made
after `th_sirc_recv` has returned `ret`. -/
def th_sirc_proc_exits (senv : SircEnv) (ret : Int) (sirc : SircSession) : Bool :=
  if ret = senv.SRN_ERR then true
  else if sirc.fd = -1 then true
  else false

/-- The idle callback `idle_sirc_recv` (lines 188-198). -/
def idle_sirc_recv (senv : SircEnv) (sirc : SircSession) : IdleOutcome :=
  let parsed := senv.sirc_parse sirc.buf
  let calls : List SircCall :=
    if parsed.1 = senv.SRN_OK then [SircCall.sirc_event_hdr parsed.2] else []
  { result := FALSE, sirc := g_mutex_unlock sirc, calls := calls, idle := [] }

/-- The idle callback `idle_sirc_on_connect` (lines 200-203). -/
def idle_sirc_on_connect (sirc : SircSession) : IdleOutcome :=
  { result := FALSE, sirc := sirc, calls := [SircCall.events_connect "CONNECT"], idle := [] }

/-- The idle callback `idle_sirc_on_disconnect` (lines 205-208). -/
def idle_sirc_on_disconnect (sirc : SircSession) : IdleOutcome :=
  { result := FALSE, sirc := sirc, calls := [SircCall.events_disconnect], idle := [] }

/-- The callback a source stands for. -/
def call_idle_func (senv : SircEnv) (sirc : SircSession) : IdleFunc → IdleOutcome
  | IdleFunc.idle_sirc_recv => idle_sirc_recv senv sirc
  | IdleFunc.idle_sirc_on_connect => idle_sirc_on_connect sirc
  | IdleFunc.idle_sirc_on_disconnect => idle_sirc_on_disconnect sirc

/-! ## The worker and the main loop side by side -/

/-- Where the worker thread of a session is.  It advances only at the calls
that touch what it shares with the main loop. -/
inductive WorkerPc where
  /-- In `th_sirc_connect`, `sck_get_socket` has not returned yet. -/
  | th_sirc_connect
  /-- At the top of the loop of `th_sirc_proc`: `th_sirc_recv` is called next
  and waits for the buffer lock. -/
  | th_sirc_proc
  /-- In `th_sirc_recv` with the lock held, `sck_readline` has not returned
  yet. -/
  | sck_readline
  /-- In `th_sirc_proc`, `th_sirc_recv` has returned `ret` and the exit tests
  of the loop are next. -/
  | th_sirc_recv_returned (ret : Int)
  /-- The worker function has returned. -/
  | exited
  deriving DecidableEq, Repr

/-- A session with its worker and the main loop: the shared session, the place
of the worker, the idle sources that are pending (oldest first) and the calls
the callbacks have made.  `lines_read` and `lines_parsed` are history
variables: the buffer contents of every successful `sck_readline` and of every
call of `sirc_parse`, oldest first. -/
structure System where
  sirc : SircSession
  worker : WorkerPc
  queue : List IdleSource
  calls : List SircCall
  lines_read : List String
  lines_parsed : List String
  deriving DecidableEq, Repr

/-- The atomic steps of the worker and of the main loop.  The worker steps are
the return of `sck_get_socket`, the return of `g_mutex_lock`, a write of
`sck_readline` into the buffer before it returns, the return of
`sck_readline`, and the exit tests of the loop.  The main loop runs a pending
source or calls `sirc_disconnect`. -/
inductive Step where
  | sck_get_socket_returns (sock : Int)
  | g_mutex_lock_returns
  | sck_readline_writes (data : String)
  | sck_readline_returns (rd : Readline)
  | th_sirc_proc_tests
  | dispatch (src : IdleSource)
  | sirc_disconnect
  deriving DecidableEq, Repr

/-- One step of the system seen from a given place of the worker; `none` when
the step cannot be taken there.  A source can be dispatched when it is
pending; the oldest pending source equal to it is the one removed. -/
def System.step_at (senv : SircEnv) (sys : System) : WorkerPc → Step → Option System
  | WorkerPc.th_sirc_connect, Step.sck_get_socket_returns sock =>
    some { sys with
      sirc := (th_sirc_connect sys.sirc sock).sirc
      queue := sys.queue ++ (th_sirc_connect sys.sirc sock).idle
      worker :=
        if (th_sirc_connect sys.sirc sock).enters_th_sirc_proc = true then
          WorkerPc.th_sirc_proc
        else WorkerPc.exited }
  | WorkerPc.th_sirc_proc, Step.g_mutex_lock_returns =>
    match g_mutex_lock sys.sirc with
    | none => none
    | some locked => some { sys with sirc := locked, worker := WorkerPc.sck_readline }
  | WorkerPc.sck_readline, Step.sck_readline_writes data =>
    some { sys with sirc := { sys.sirc with buf := data } }
  | WorkerPc.sck_readline, Step.sck_readline_returns rd =>
    some { sys with
      sirc := (th_sirc_recv_locked senv sys.sirc rd).sirc
      queue := sys.queue ++ (th_sirc_recv_locked senv sys.sirc rd).idle
      worker := WorkerPc.th_sirc_recv_returned (th_sirc_recv_locked senv sys.sirc rd).ret
      lines_read :=
        if rd.ret ≠ senv.SRN_ERR then sys.lines_read ++ [rd.buf] else sys.lines_read }
  | WorkerPc.th_sirc_recv_returned ret, Step.th_sirc_proc_tests =>
    some { sys with
      worker :=
        if th_sirc_proc_exits senv ret sys.sirc = true then WorkerPc.exited
        else WorkerPc.th_sirc_proc }
  | _, Step.dispatch src =>
    if src ∈ sys.queue then
      some { sys with
        sirc := (call_idle_func senv sys.sirc src.func).sirc
        queue := sys.queue.erase src ++ (call_idle_func senv sys.sirc src.func).idle
        calls := sys.calls ++ (call_idle_func senv sys.sirc src.func).calls
        lines_parsed :=
          if src.func = IdleFunc.idle_sirc_recv then sys.lines_parsed ++ [sys.sirc.buf]
          else sys.lines_parsed }
    else none
  | _, Step.sirc_disconnect =>
    some { sys with sirc := sirc_disconnect sys.sirc }
  | _, _ => none

/-- One step of the system. -/
def System.step (senv : SircEnv) (sys : System) (st : Step) : Option System :=
  sys.step_at senv sys.worker st

/-- A finite sequence of steps; `none` when some step cannot be taken. -/
def System.exec (senv : SircEnv) (sys : System) : List Step → Option System
  | [] => some sys
  | st :: sts =>
    match sys.step senv st with
    | none => none
    | some next => next.exec senv sts

/-- The pending source of a read line. -/
def recv_source : IdleSource :=
  { priority := Priority.G_PRIORITY_HIGH_IDLE, func := IdleFunc.idle_sirc_recv }

/-- The number of read lines whose `idle_sirc_recv` is still pending. -/
def System.pending_recv (sys : System) : Nat :=
  sys.queue.count recv_source

/-- The state of the handoff between worker and main loop: at most one
`idle_sirc_recv` is pending; while the worker is in `sck_readline` it holds
the lock, none is pending and every line read has been parsed; while one is
pending the lock is held, the worker is not in `sck_readline`, and the lines
read are the lines parsed followed by the buffer; when none is pending every
line read has been parsed, and the lock is free unless the worker is in
`sck_readline`; every pending source has high priority. -/
def System.handoff (sys : System) : Prop :=
  sys.pending_recv ≤ 1 ∧
  (sys.worker = WorkerPc.sck_readline →
    sys.sirc.mutex = true ∧ sys.pending_recv = 0) ∧
  (sys.pending_recv = 1 →
    sys.sirc.mutex = true ∧ sys.lines_read = sys.lines_parsed ++ [sys.sirc.buf]) ∧
  (sys.pending_recv = 0 → sys.lines_read = sys.lines_parsed) ∧
  (sys.pending_recv = 0 → sys.worker ≠ WorkerPc.sck_readline → sys.sirc.mutex = false) ∧
  (∀ src ∈ sys.queue, src.priority = Priority.G_PRIORITY_HIGH_IDLE)

/-- A session that has just been created and whose first worker has just been
spawned by `sirc_connect`. -/
def System.spawned : System :=
  { sirc := sirc_new_session, worker := WorkerPc.th_sirc_connect, queue := [], calls := [],
    lines_read := [], lines_parsed := [] }

/-! ## Concrete inputs -/

/-- An environment with a reconnect step of five seconds and untranslated
messages. -/
def env_example : Env :=
  { SRN_SERVER_RECONN_STEP := 5000, gettext := fun msgid => msgid }

/-- A registered server that has never connected: `Disconnected`, interval at
the base step, no timer. -/
def srv_example : SrnServer :=
  { is_valid := true, name := "example", state := SRN_SERVER_STATE_DISCONNECTED,
    last_action := SRN_SERVER_ACTION_DISCONNECT,
    addr := { host := "irc.example.org", port := 6667 },
    reconn_interval := 5000, reconn_timer := 0 }

/-- Result codes 0 and -1 and a parser that accepts the line
"PING :server" only. -/
def senv_example : SircEnv :=
  { SRN_OK := 0, SRN_ERR := -1
    sirc_parse := fun line =>
      if line = "PING :server\r\n" then
        (0, { command := "PING", source := "", params := ["server"] })
      else (-1, { command := "", source := "", params := [] }) }

/-! ## Single transitions -/

/-- C1: for every valid server and every accepting row of the transition
table, `srn_server_state_transfrom` returns `SRN_OK`, sets `state` to the
listed next state, records the action in `last_action`, leaves every other
field as the row lists it (`reconn_interval` becomes the step on
`Connecting` + `ConnectFinish`, `reconn_timer` becomes the new handle when a
timer is scheduled and zero when it is cancelled), and makes exactly the calls
of the listed side effect, in order, and no other. -/
theorem transfrom_accepting_rows (env : Env) (tid : Nat) (srv : SrnServer)
    (action : SrnServerAction) (row : Row)
    (hvalid : srv.is_valid = true)
    (hrow : transition_table env tid srv srv.state action = some row) :
    (srn_server_state_transfrom env tid srv action).ret = SrnRet.SRN_OK ∧
    (srn_server_state_transfrom env tid srv action).srv =
      { srv with
        state := row.next, last_action := action,
        reconn_interval := row.reconn_interval, reconn_timer := row.reconn_timer } ∧
    (srn_server_state_transfrom env tid srv action).effects = row.calls := by
  obtain ⟨valid, name, state, last, addr, interval, timer⟩ := srv
  simp only at hvalid
  subst hvalid
  cases state <;> cases action <;>
    simp [transition_table] at hrow <;>
    subst hrow <;>
    simp [srn_server_state_transfrom, state_machine, RET_IS_OK]

/-- Witness for C1 on `Connecting` + `ConnectFail` with a fresh timer handle. -/
theorem transfrom_accepting_rows_witness :
    ({ srv_example with state := SRN_SERVER_STATE_CONNECTING } : SrnServer).is_valid = true ∧
    transition_table env_example 7 { srv_example with state := SRN_SERVER_STATE_CONNECTING }
        SRN_SERVER_STATE_CONNECTING SRN_SERVER_ACTION_CONNECT_FAIL =
      some { next := SRN_SERVER_STATE_RECONNECTING, calls := [Effect.g_timeout_add 5000],
             reconn_interval := 5000, reconn_timer := 7 } ∧
    (srn_server_state_transfrom env_example 7
        { srv_example with state := SRN_SERVER_STATE_CONNECTING }
        SRN_SERVER_ACTION_CONNECT_FAIL).ret = SrnRet.SRN_OK ∧
    (srn_server_state_transfrom env_example 7
        { srv_example with state := SRN_SERVER_STATE_CONNECTING }
        SRN_SERVER_ACTION_CONNECT_FAIL).srv =
      { srv_example with
        state := SRN_SERVER_STATE_RECONNECTING, last_action := SRN_SERVER_ACTION_CONNECT_FAIL,
        reconn_interval := 5000, reconn_timer := 7 } ∧
    (srn_server_state_transfrom env_example 7
        { srv_example with state := SRN_SERVER_STATE_CONNECTING }
        SRN_SERVER_ACTION_CONNECT_FAIL).effects = [Effect.g_timeout_add 5000] :=
  ⟨rfl, rfl,
    transfrom_accepting_rows env_example 7
      { srv_example with state := SRN_SERVER_STATE_CONNECTING }
      SRN_SERVER_ACTION_CONNECT_FAIL
      { next := SRN_SERVER_STATE_RECONNECTING, calls := [Effect.g_timeout_add 5000],
        reconn_interval := 5000, reconn_timer := 7 } rfl rfl⟩

/-- The accepting rows of the table are all the transitions the code accepts:
on a valid server the result is `SRN_OK` exactly when the table has a row for
the pair. -/
theorem transfrom_ok_iff_row (env : Env) (tid : Nat) (srv : SrnServer)
    (action : SrnServerAction) (hvalid : srv.is_valid = true) :
    (srn_server_state_transfrom env tid srv action).ret = SrnRet.SRN_OK ↔
      (transition_table env tid srv srv.state action).isSome = true := by
  obtain ⟨valid, name, state, last, addr, interval, timer⟩ := srv
  simp only at hvalid
  subst hvalid
  cases state <;> cases action <;>
    simp [srn_server_state_transfrom, state_machine, RET_IS_OK, transition_table]

/-- C2: for every server and every action, if `srn_server_state_transfrom`
returns a failure (anything but `SRN_OK`, the invalid-server guard included),
the server is exactly as it was (`state`, `last_action`, `reconn_interval`,
`reconn_timer` and all other fields) and no call was made: no transport
connect, disconnect or cancel, no quit command, no timer added or removed, no
removal scheduled. -/
theorem transfrom_failure_leaves_server (env : Env) (tid : Nat) (srv : SrnServer)
    (action : SrnServerAction)
    (hfail : (srn_server_state_transfrom env tid srv action).ret ≠ SrnRet.SRN_OK) :
    (srn_server_state_transfrom env tid srv action).srv = srv ∧
    (srn_server_state_transfrom env tid srv action).effects = [] := by
  obtain ⟨valid, name, state, last, addr, interval, timer⟩ := srv
  cases valid
  · simp [srn_server_state_transfrom]
  · cases state <;> cases action <;>
      simp [srn_server_state_transfrom, state_machine, RET_IS_OK] at hfail ⊢

/-- Witness for C2 on `Connecting` + `Connect`, a rejected action. -/
theorem transfrom_failure_leaves_server_witness :
    (srn_server_state_transfrom env_example 7
        { srv_example with state := SRN_SERVER_STATE_CONNECTING }
        SRN_SERVER_ACTION_CONNECT).ret ≠ SrnRet.SRN_OK ∧
    (srn_server_state_transfrom env_example 7
        { srv_example with state := SRN_SERVER_STATE_CONNECTING }
        SRN_SERVER_ACTION_CONNECT).srv =
      { srv_example with state := SRN_SERVER_STATE_CONNECTING } ∧
    (srn_server_state_transfrom env_example 7
        { srv_example with state := SRN_SERVER_STATE_CONNECTING }
        SRN_SERVER_ACTION_CONNECT).effects = [] :=
  ⟨by simp [srn_server_state_transfrom, state_machine, RET_IS_OK, srv_example],
    transfrom_failure_leaves_server env_example 7
      { srv_example with state := SRN_SERVER_STATE_CONNECTING } SRN_SERVER_ACTION_CONNECT
      (by simp [srn_server_state_transfrom, state_machine, RET_IS_OK, srv_example])⟩

/-- C3: for each user-facing error row of the transition table
(`Disconnected` + `Disconnect`, `Connecting` + `Connect`, `Connected` +
`Connect`, `Quiting` + `Connect`, `Quiting` + `Disconnect`) and every valid
server, `srn_server_state_transfrom` returns the structured failure built by
`RET_ERR` from the translated "Unallowed action" template and the translated
explanation of the row, which is not the generic `SRN_ERR`; the server is
unchanged and no call is made. -/
theorem transfrom_unallowed_rows (env : Env) (tid : Nat) (srv : SrnServer)
    (action : SrnServerAction) (msgid : String)
    (hvalid : srv.is_valid = true)
    (hrow : unallowed_explanation srv.state action = some msgid) :
    (srn_server_state_transfrom env tid srv action).ret =
      SrnRet.RET_ERR (env.gettext "Unallowed action: %1$s") (env.gettext msgid) ∧
    (srn_server_state_transfrom env tid srv action).ret ≠ SrnRet.SRN_ERR ∧
    (srn_server_state_transfrom env tid srv action).srv = srv ∧
    (srn_server_state_transfrom env tid srv action).effects = [] := by
  obtain ⟨valid, name, state, last, addr, interval, timer⟩ := srv
  simp only at hvalid
  subst hvalid
  cases state <;> cases action <;>
    simp [unallowed_explanation] at hrow <;>
    subst hrow <;>
    simp [srn_server_state_transfrom, state_machine, RET_IS_OK]

/-- Witness for C3 on `Disconnected` + `Disconnect`. -/
theorem transfrom_unallowed_rows_witness :
    srv_example.is_valid = true ∧
    unallowed_explanation srv_example.state SRN_SERVER_ACTION_DISCONNECT =
      some "Server is already disconnected" ∧
    (srn_server_state_transfrom env_example 7 srv_example SRN_SERVER_ACTION_DISCONNECT).ret =
      SrnRet.RET_ERR "Unallowed action: %1$s" "Server is already disconnected" ∧
    (srn_server_state_transfrom env_example 7 srv_example SRN_SERVER_ACTION_DISCONNECT).ret ≠
      SrnRet.SRN_ERR ∧
    (srn_server_state_transfrom env_example 7 srv_example SRN_SERVER_ACTION_DISCONNECT).srv =
      srv_example ∧
    (srn_server_state_transfrom env_example 7 srv_example SRN_SERVER_ACTION_DISCONNECT).effects =
      [] :=
  ⟨rfl, rfl,
    transfrom_unallowed_rows env_example 7 srv_example SRN_SERVER_ACTION_DISCONNECT
      "Server is already disconnected" rfl rfl⟩

/-- C4, counterexample: in `Disconnecting`, `ConnectFinish` is answered with
the generic `SRN_ERR`, not with the structured "Server is disconnecting"
failure (the same holds for `Reconnect`). -/
theorem disconnecting_connect_finish_generic :
    (srn_server_state_transfrom env_example 7
        { srv_example with state := SRN_SERVER_STATE_DISCONNECTING }
        SRN_SERVER_ACTION_CONNECT_FINISH).ret = SrnRet.SRN_ERR ∧
    (srn_server_state_transfrom env_example 7
        { srv_example with state := SRN_SERVER_STATE_DISCONNECTING }
        SRN_SERVER_ACTION_CONNECT_FINISH).ret ≠
      SrnRet.RET_ERR (env_example.gettext "Unallowed action: %1$s")
        (env_example.gettext "Server is disconnecting") := by
  simp [srn_server_state_transfrom, state_machine, RET_IS_OK, srv_example]

/-- C4, amended: for a valid server in `Disconnecting`, the actions `Connect`,
`ConnectFail`, `Disconnect` and `Quit` return the structured unallowed-action
failure with the "Server is disconnecting" explanation, the actions
`ConnectFinish` and `Reconnect` return the generic `SRN_ERR`, and in all six
cases the server is unchanged (the state stays `Disconnecting`) and no call is
made. -/
theorem disconnecting_rejects (env : Env) (tid : Nat) (srv : SrnServer)
    (action : SrnServerAction)
    (hvalid : srv.is_valid = true)
    (hstate : srv.state = SRN_SERVER_STATE_DISCONNECTING) :
    ((action = SRN_SERVER_ACTION_CONNECT ∨ action = SRN_SERVER_ACTION_CONNECT_FAIL ∨
        action = SRN_SERVER_ACTION_DISCONNECT ∨ action = SRN_SERVER_ACTION_QUIT) →
      (srn_server_state_transfrom env tid srv action).ret =
        SrnRet.RET_ERR (env.gettext "Unallowed action: %1$s")
          (env.gettext "Server is disconnecting")) ∧
    ((action = SRN_SERVER_ACTION_CONNECT_FINISH ∨ action = SRN_SERVER_ACTION_RECONNECT) →
      (srn_server_state_transfrom env tid srv action).ret = SrnRet.SRN_ERR) ∧
    (action ≠ SRN_SERVER_ACTION_DISCONNECT_FINISH →
      (srn_server_state_transfrom env tid srv action).srv = srv ∧
      (srn_server_state_transfrom env tid srv action).srv.state =
        SRN_SERVER_STATE_DISCONNECTING ∧
      (srn_server_state_transfrom env tid srv action).effects = []) := by
  obtain ⟨valid, name, state, last, addr, interval, timer⟩ := srv
  simp only at hvalid hstate
  subst hvalid hstate
  cases action <;> simp [srn_server_state_transfrom, state_machine, RET_IS_OK]

/-- Witness for the amended C4 on `Disconnecting` + `Quit`. -/
theorem disconnecting_rejects_witness :
    ({ srv_example with state := SRN_SERVER_STATE_DISCONNECTING } : SrnServer).is_valid = true ∧
    ({ srv_example with state := SRN_SERVER_STATE_DISCONNECTING } : SrnServer).state =
      SRN_SERVER_STATE_DISCONNECTING ∧
    (srn_server_state_transfrom env_example 7
        { srv_example with state := SRN_SERVER_STATE_DISCONNECTING }
        SRN_SERVER_ACTION_QUIT).ret =
      SrnRet.RET_ERR "Unallowed action: %1$s" "Server is disconnecting" ∧
    (srn_server_state_transfrom env_example 7
        { srv_example with state := SRN_SERVER_STATE_DISCONNECTING }
        SRN_SERVER_ACTION_QUIT).srv.state = SRN_SERVER_STATE_DISCONNECTING :=
  ⟨rfl, rfl,
    (disconnecting_rejects env_example 7
      { srv_example with state := SRN_SERVER_STATE_DISCONNECTING } SRN_SERVER_ACTION_QUIT
      rfl rfl).1 (Or.inr (Or.inr (Or.inr rfl))),
    ((disconnecting_rejects env_example 7
      { srv_example with state := SRN_SERVER_STATE_DISCONNECTING } SRN_SERVER_ACTION_QUIT
      rfl rfl).2.2 (by decide)).2.1⟩

/-- C5: for every pair of a state and an action that the transition table
does not list, and for every state value outside the six defined states (with
any action), `srn_server_state_transfrom` returns the generic failure
`SRN_ERR`, which is not a structured unallowed-action message, leaves the
server unchanged and makes no call.  On a valid server it reports the defect
through `g_warn_if_reached` at the `default` label and then writes the
`WARN_FR` line, whose arguments add a warning for each value outside its
enum: for an unlisted pair the log is that one warning and the line; for a
state outside the enum it is the warning of the outer `default`, the warning
of `srn_server_state_to_string`, the warning of `srn_server_action_to_string`
if the action is outside its enum too, and the line.  On an invalid server
only the guard is logged. -/
theorem transfrom_unlisted_is_generic_error (env : Env) (tid : Nat) (srv : SrnServer)
    (action : SrnServerAction)
    (hpair : unlisted_pair srv.state action = true ∨
      ∃ raw, srv.state = SRN_SERVER_STATE_UNKNOWN raw) :
    (srn_server_state_transfrom env tid srv action).ret = SrnRet.SRN_ERR ∧
    (∀ fmt arg, (srn_server_state_transfrom env tid srv action).ret ≠ SrnRet.RET_ERR fmt arg) ∧
    (srn_server_state_transfrom env tid srv action).srv = srv ∧
    (srn_server_state_transfrom env tid srv action).effects = [] ∧
    (srv.is_valid = true →
      (srn_server_state_transfrom env tid srv action).log =
        Diag.g_warn_if_reached ::
          ((srn_server_state_to_string srv.state).2 ++
            (srn_server_action_to_string action).2 ++
            [Diag.WARN_FR srv.name (srn_server_state_to_string srv.state).1
              (srn_server_action_to_string action).1 SrnRet.SRN_ERR])) ∧
    (srv.is_valid = true → unlisted_pair srv.state action = true →
      (srn_server_state_transfrom env tid srv action).log =
        [Diag.g_warn_if_reached,
         Diag.WARN_FR srv.name (srn_server_state_to_string srv.state).1
           (srn_server_action_to_string action).1 SrnRet.SRN_ERR]) ∧
    (srv.is_valid = true → ∀ raw, srv.state = SRN_SERVER_STATE_UNKNOWN raw →
      (srn_server_state_transfrom env tid srv action).log =
        [Diag.g_warn_if_reached, Diag.g_warn_if_reached] ++
          (srn_server_action_to_string action).2 ++
          [Diag.WARN_FR srv.name none (srn_server_action_to_string action).1
            SrnRet.SRN_ERR]) ∧
    (srv.is_valid = false →
      (srn_server_state_transfrom env tid srv action).log = [Diag.g_return_val_if_fail]) := by
  obtain ⟨valid, name, state, last, addr, interval, timer⟩ := srv
  cases valid
  · simp [srn_server_state_transfrom]
  · cases state <;> cases action <;>
      simp [unlisted_pair] at hpair <;>
      simp [srn_server_state_transfrom, state_machine, RET_IS_OK, unlisted_pair,
        srn_server_state_to_string, srn_server_action_to_string]

/-- Witness for C5 on `Reconnecting` + `ConnectFail`, an unlisted pair, and on
a state outside the enum with `Connect`, where the log holds two warnings
before the `WARN_FR` line. -/
theorem transfrom_unlisted_is_generic_error_witness :
    unlisted_pair ({ srv_example with state := SRN_SERVER_STATE_RECONNECTING } : SrnServer).state
      SRN_SERVER_ACTION_CONNECT_FAIL = true ∧
    (srn_server_state_transfrom env_example 7
        { srv_example with state := SRN_SERVER_STATE_RECONNECTING }
        SRN_SERVER_ACTION_CONNECT_FAIL).ret = SrnRet.SRN_ERR ∧
    (srn_server_state_transfrom env_example 7
        { srv_example with state := SRN_SERVER_STATE_RECONNECTING }
        SRN_SERVER_ACTION_CONNECT_FAIL).srv =
      { srv_example with state := SRN_SERVER_STATE_RECONNECTING } ∧
    (srn_server_state_transfrom env_example 7
        { srv_example with state := SRN_SERVER_STATE_RECONNECTING }
        SRN_SERVER_ACTION_CONNECT_FAIL).log =
      [Diag.g_warn_if_reached,
       Diag.WARN_FR "example" (some "SRN_SERVER_STATE_RECONNECTING")
         (some "SRN_SERVER_ACTION_CONNECT_FAIL") SrnRet.SRN_ERR] ∧
    (∃ raw, ({ srv_example with state := SRN_SERVER_STATE_UNKNOWN 9 } : SrnServer).state =
      SRN_SERVER_STATE_UNKNOWN raw) ∧
    (srn_server_state_transfrom env_example 7
        { srv_example with state := SRN_SERVER_STATE_UNKNOWN 9 }
        SRN_SERVER_ACTION_CONNECT).ret = SrnRet.SRN_ERR ∧
    (srn_server_state_transfrom env_example 7
        { srv_example with state := SRN_SERVER_STATE_UNKNOWN 9 }
        SRN_SERVER_ACTION_CONNECT).log =
      [Diag.g_warn_if_reached, Diag.g_warn_if_reached] ++ [] ++
        [Diag.WARN_FR "example" none (some "SRN_SERVER_ACTION_CONNECT") SrnRet.SRN_ERR] :=
  ⟨rfl,
    (transfrom_unlisted_is_generic_error env_example 7
      { srv_example with state := SRN_SERVER_STATE_RECONNECTING }
      SRN_SERVER_ACTION_CONNECT_FAIL (Or.inl rfl)).1,
    (transfrom_unlisted_is_generic_error env_example 7
      { srv_example with state := SRN_SERVER_STATE_RECONNECTING }
      SRN_SERVER_ACTION_CONNECT_FAIL (Or.inl rfl)).2.2.1,
    (transfrom_unlisted_is_generic_error env_example 7
      { srv_example with state := SRN_SERVER_STATE_RECONNECTING }
      SRN_SERVER_ACTION_CONNECT_FAIL (Or.inl rfl)).2.2.2.2.2.1 rfl rfl,
    ⟨9, rfl⟩,
    (transfrom_unlisted_is_generic_error env_example 7
      { srv_example with state := SRN_SERVER_STATE_UNKNOWN 9 }
      SRN_SERVER_ACTION_CONNECT (Or.inr ⟨9, rfl⟩)).1,
    (transfrom_unlisted_is_generic_error env_example 7
      { srv_example with state := SRN_SERVER_STATE_UNKNOWN 9 }
      SRN_SERVER_ACTION_CONNECT (Or.inr ⟨9, rfl⟩)).2.2.2.2.2.2.1 rfl 9 rfl⟩

/-! ## The reconnect timer and the reconnect interval -/

/-- The code at the failing input of C6: a registered `Disconnected` server
with no timer satisfies the timer invariant; after `Connect` and `ConnectFail`
(the timer gets handle 1) it is `Reconnecting` and still satisfies it; when
the timer then fires, the server is `Connecting` while `reconn_timer` is still
1, so the invariant no longer holds.  The transitions `Reconnecting` +
`Disconnect` and `Reconnecting` + `Quit` do reset the handle to zero. -/
theorem timer_handle_kept_after_firing :
    timer_invariant srv_example ∧
    timer_invariant (run env_example srv_example
      [Event.transfrom SRN_SERVER_ACTION_CONNECT 1,
       Event.transfrom SRN_SERVER_ACTION_CONNECT_FAIL 1]) ∧
    (run env_example srv_example
      [Event.transfrom SRN_SERVER_ACTION_CONNECT 1,
       Event.transfrom SRN_SERVER_ACTION_CONNECT_FAIL 1,
       Event.reconnect_timeout 2]).state = SRN_SERVER_STATE_CONNECTING ∧
    (run env_example srv_example
      [Event.transfrom SRN_SERVER_ACTION_CONNECT 1,
       Event.transfrom SRN_SERVER_ACTION_CONNECT_FAIL 1,
       Event.reconnect_timeout 2]).reconn_timer = 1 ∧
    ¬ timer_invariant (run env_example srv_example
      [Event.transfrom SRN_SERVER_ACTION_CONNECT 1,
       Event.transfrom SRN_SERVER_ACTION_CONNECT_FAIL 1,
       Event.reconnect_timeout 2]) ∧
    (run env_example srv_example
      [Event.transfrom SRN_SERVER_ACTION_CONNECT 1,
       Event.transfrom SRN_SERVER_ACTION_CONNECT_FAIL 1,
       Event.transfrom SRN_SERVER_ACTION_DISCONNECT 2]).reconn_timer = 0 := by
  refine ⟨by decide, by decide, rfl, rfl, by decide, rfl⟩

/-- A transition changes `reconn_interval` only when it is an accepted
`ConnectFinish`. -/
theorem transfrom_reconn_interval (env : Env) (tid : Nat) (srv : SrnServer)
    (action : SrnServerAction)
    (h : action = SRN_SERVER_ACTION_CONNECT_FINISH →
      RET_IS_OK (srn_server_state_transfrom env tid srv action).ret = false) :
    (srn_server_state_transfrom env tid srv action).srv.reconn_interval =
      srv.reconn_interval := by
  obtain ⟨valid, name, state, last, addr, interval, timer⟩ := srv
  cases valid
  · simp [srn_server_state_transfrom]
  · cases state <;> cases action <;>
      simp [srn_server_state_transfrom, state_machine, RET_IS_OK] at h ⊢

/-- A firing of the reconnect timer adds the step to `reconn_interval`,
whatever the nested `Connect` does. -/
theorem reconnect_timeout_reconn_interval (env : Env) (tid : Nat) (srv : SrnServer) :
    (srn_server_reconnect_timeout env tid srv).srv.reconn_interval =
      srv.reconn_interval + env.SRN_SERVER_RECONN_STEP := by
  unfold srn_server_reconnect_timeout
  simp only
  rw [transfrom_reconn_interval env tid _ SRN_SERVER_ACTION_CONNECT (by simp)]

/-- One event that is not an accepted `ConnectFinish` does not lower the
interval when the step is not negative. -/
theorem apply_reconn_interval_le (env : Env) (srv : SrnServer) (e : Event)
    (hstep : 0 ≤ env.SRN_SERVER_RECONN_STEP)
    (h : e.accepts_connect_finish env srv = false) :
    srv.reconn_interval ≤ (e.apply env srv).reconn_interval := by
  cases e with
  | transfrom action tid =>
    have hkeep := transfrom_reconn_interval env tid srv action (by
      intro ha
      subst ha
      simpa [Event.accepts_connect_finish] using h)
    simp [Event.apply, hkeep]
  | reconnect_timeout tid =>
    simp [Event.apply, reconnect_timeout_reconn_interval, hstep]

/-- Running a concatenation is running its parts one after the other. -/
theorem run_append (env : Env) (srv : SrnServer) (pre rest : List Event) :
    run env srv (pre ++ rest) = run env (run env srv pre) rest := by
  induction pre generalizing srv with
  | nil => rfl
  | cons e es ih => simp [run, ih]

/-- A sequence without accepted `ConnectFinish` splits into two such
sequences. -/
theorem no_connect_finish_accepted_append (env : Env) (srv : SrnServer)
    (pre rest : List Event)
    (h : no_connect_finish_accepted env srv (pre ++ rest) = true) :
    no_connect_finish_accepted env srv pre = true ∧
    no_connect_finish_accepted env (run env srv pre) rest = true := by
  induction pre generalizing srv with
  | nil => exact ⟨rfl, h⟩
  | cons e es ih =>
    simp only [List.cons_append, no_connect_finish_accepted, Bool.and_eq_true] at h ⊢
    exact ⟨⟨h.1, (ih _ h.2).1⟩, (ih _ h.2).2⟩

/-- Over a sequence without accepted `ConnectFinish` the interval at the end
is at least the interval at the start. -/
theorem run_reconn_interval_le (env : Env) (srv : SrnServer) (evs : List Event)
    (hstep : 0 ≤ env.SRN_SERVER_RECONN_STEP)
    (h : no_connect_finish_accepted env srv evs = true) :
    srv.reconn_interval ≤ (run env srv evs).reconn_interval := by
  induction evs generalizing srv with
  | nil => exact le_refl _
  | cons e es ih =>
    simp only [no_connect_finish_accepted, Bool.and_eq_true, Bool.not_eq_true'] at h
    exact le_trans (apply_reconn_interval_le env srv e hstep h.1) (ih _ h.2)

/-- C7, counterexample: a `Connecting` server with interval 5000 and step 5000
still has interval 5000 after `ConnectFail`, not 10000. -/
theorem connect_fail_keeps_interval_example :
    ({ srv_example with state := SRN_SERVER_STATE_CONNECTING } : SrnServer).state =
      SRN_SERVER_STATE_CONNECTING ∧
    (srn_server_state_transfrom env_example 7
        { srv_example with state := SRN_SERVER_STATE_CONNECTING }
        SRN_SERVER_ACTION_CONNECT_FAIL).srv.reconn_interval = 5000 ∧
    (srn_server_state_transfrom env_example 7
        { srv_example with state := SRN_SERVER_STATE_CONNECTING }
        SRN_SERVER_ACTION_CONNECT_FAIL).srv.reconn_interval ≠
      ({ srv_example with state := SRN_SERVER_STATE_CONNECTING } : SrnServer).reconn_interval +
        env_example.SRN_SERVER_RECONN_STEP := by
  refine ⟨rfl, rfl, ?_⟩
  decide

/-- C7, amended: for every server in `Connecting`, `ConnectFail` leaves
`reconn_interval` as it is (the timer is scheduled at that interval when the
server is valid); the fixed step is added when the scheduled timer fires, so
after `ConnectFail` followed by the firing of `srn_server_reconnect_timeout`
the interval equals the interval before the `ConnectFail` plus
`SRN_SERVER_RECONN_STEP`. -/
theorem connect_fail_then_timeout_adds_step (env : Env) (tid tid2 : Nat) (srv : SrnServer)
    (hstate : srv.state = SRN_SERVER_STATE_CONNECTING) :
    (srn_server_state_transfrom env tid srv SRN_SERVER_ACTION_CONNECT_FAIL).srv.reconn_interval =
      srv.reconn_interval ∧
    (srv.is_valid = true →
      (srn_server_state_transfrom env tid srv SRN_SERVER_ACTION_CONNECT_FAIL).effects =
        [Effect.g_timeout_add srv.reconn_interval]) ∧
    (srn_server_reconnect_timeout env tid2
        (srn_server_state_transfrom env tid srv SRN_SERVER_ACTION_CONNECT_FAIL).srv
      ).srv.reconn_interval = srv.reconn_interval + env.SRN_SERVER_RECONN_STEP := by
  refine ⟨transfrom_reconn_interval env tid srv _ (by simp), ?_, ?_⟩
  · obtain ⟨valid, name, state, last, addr, interval, timer⟩ := srv
    simp only at hstate
    subst hstate
    intro hvalid
    simp only at hvalid
    subst hvalid
    simp [srn_server_state_transfrom, state_machine, RET_IS_OK]
  · rw [reconnect_timeout_reconn_interval, transfrom_reconn_interval env tid srv _ (by simp)]

/-- Witness for the amended C7: interval 5000 stays 5000 at `ConnectFail` and
is 10000 after the timer has fired. -/
theorem connect_fail_then_timeout_adds_step_witness :
    ({ srv_example with state := SRN_SERVER_STATE_CONNECTING } : SrnServer).state =
      SRN_SERVER_STATE_CONNECTING ∧
    (srn_server_state_transfrom env_example 7
        { srv_example with state := SRN_SERVER_STATE_CONNECTING }
        SRN_SERVER_ACTION_CONNECT_FAIL).srv.reconn_interval = 5000 ∧
    (srn_server_reconnect_timeout env_example 8
        (srn_server_state_transfrom env_example 7
          { srv_example with state := SRN_SERVER_STATE_CONNECTING }
          SRN_SERVER_ACTION_CONNECT_FAIL).srv).srv.reconn_interval = 5000 + 5000 :=
  ⟨rfl,
    (connect_fail_then_timeout_adds_step env_example 7 8
      { srv_example with state := SRN_SERVER_STATE_CONNECTING } rfl).1,
    (connect_fail_then_timeout_adds_step env_example 7 8
      { srv_example with state := SRN_SERVER_STATE_CONNECTING } rfl).2.2⟩

/-- C8: when `SRN_SERVER_RECONN_STEP` is not negative, for every starting
server and every finite sequence of `srn_server_state_transfrom` calls and
reconnect-timer firings in which no `ConnectFinish` is accepted, each event of
the sequence leaves `reconn_interval` greater than or equal to what it was
before that event, and the interval at the end is at least the interval at the
start; consecutive `ConnectFail` events from `Connecting` are a special
case. -/
theorem reconn_interval_non_decreasing (env : Env) (srv : SrnServer)
    (evs pre post : List Event) (e : Event)
    (hstep : 0 ≤ env.SRN_SERVER_RECONN_STEP)
    (hno : no_connect_finish_accepted env srv evs = true)
    (hsplit : evs = pre ++ e :: post) :
    (run env srv pre).reconn_interval ≤ (run env srv (pre ++ [e])).reconn_interval ∧
    srv.reconn_interval ≤ (run env srv evs).reconn_interval := by
  refine ⟨?_, run_reconn_interval_le env srv evs hstep hno⟩
  subst hsplit
  have hrest := (no_connect_finish_accepted_append env srv pre (e :: post) hno).2
  simp only [no_connect_finish_accepted, Bool.and_eq_true, Bool.not_eq_true'] at hrest
  rw [run_append]
  exact apply_reconn_interval_le env (run env srv pre) e hstep hrest.1

/-- Witness for C8: two rounds of `ConnectFail` and timer firing from a
`Disconnected` server; the step looked at is the second `ConnectFail`. -/
theorem reconn_interval_non_decreasing_witness :
    0 ≤ env_example.SRN_SERVER_RECONN_STEP ∧
    no_connect_finish_accepted env_example srv_example
      [Event.transfrom SRN_SERVER_ACTION_CONNECT 1,
       Event.transfrom SRN_SERVER_ACTION_CONNECT_FAIL 1,
       Event.reconnect_timeout 2,
       Event.transfrom SRN_SERVER_ACTION_CONNECT_FAIL 3,
       Event.reconnect_timeout 4] = true ∧
    (run env_example srv_example
      [Event.transfrom SRN_SERVER_ACTION_CONNECT 1,
       Event.transfrom SRN_SERVER_ACTION_CONNECT_FAIL 1,
       Event.reconnect_timeout 2]).reconn_interval ≤
    (run env_example srv_example
      ([Event.transfrom SRN_SERVER_ACTION_CONNECT 1,
        Event.transfrom SRN_SERVER_ACTION_CONNECT_FAIL 1,
        Event.reconnect_timeout 2] ++
        [Event.transfrom SRN_SERVER_ACTION_CONNECT_FAIL 3])).reconn_interval ∧
    srv_example.reconn_interval ≤
    (run env_example srv_example
      [Event.transfrom SRN_SERVER_ACTION_CONNECT 1,
       Event.transfrom SRN_SERVER_ACTION_CONNECT_FAIL 1,
       Event.reconnect_timeout 2,
       Event.transfrom SRN_SERVER_ACTION_CONNECT_FAIL 3,
       Event.reconnect_timeout 4]).reconn_interval :=
  ⟨by decide, rfl,
    reconn_interval_non_decreasing env_example srv_example
      [Event.transfrom SRN_SERVER_ACTION_CONNECT 1,
       Event.transfrom SRN_SERVER_ACTION_CONNECT_FAIL 1,
       Event.reconnect_timeout 2,
       Event.transfrom SRN_SERVER_ACTION_CONNECT_FAIL 3,
       Event.reconnect_timeout 4]
      [Event.transfrom SRN_SERVER_ACTION_CONNECT 1,
       Event.transfrom SRN_SERVER_ACTION_CONNECT_FAIL 1,
       Event.reconnect_timeout 2]
      [Event.reconnect_timeout 4]
      (Event.transfrom SRN_SERVER_ACTION_CONNECT_FAIL 3)
      (by decide) rfl rfl⟩

/-! ## End-to-end scenarios -/

/-- C9, counterexample: from a valid `Disconnected` server with interval 5000
and step 5000, `Connect` and then `ConnectFail` give `Reconnecting` with
interval still 5000, not base + step = 10000. -/
theorem reconnecting_interval_is_base_example :
    (run env_example srv_example
      [Event.transfrom SRN_SERVER_ACTION_CONNECT 1,
       Event.transfrom SRN_SERVER_ACTION_CONNECT_FAIL 1]).state =
      SRN_SERVER_STATE_RECONNECTING ∧
    (run env_example srv_example
      [Event.transfrom SRN_SERVER_ACTION_CONNECT 1,
       Event.transfrom SRN_SERVER_ACTION_CONNECT_FAIL 1]).reconn_interval = 5000 ∧
    (run env_example srv_example
      [Event.transfrom SRN_SERVER_ACTION_CONNECT 1,
       Event.transfrom SRN_SERVER_ACTION_CONNECT_FAIL 1]).reconn_interval ≠
      srv_example.reconn_interval + env_example.SRN_SERVER_RECONN_STEP := by
  refine ⟨rfl, rfl, ?_⟩
  decide

/-- C9, amended: starting from a valid `Disconnected` server with any interval
`base`, `Connect` yields `Connecting` (transport connect started);
`ConnectFail` then yields `Reconnecting` with a timer scheduled at `base` and
the interval still equal to `base`; the timer firing raises the interval to
`base` + step, re-issues `Connect` and yields `Connecting` (transport connect
started); `ConnectFinish` then yields `Connected` with the interval reset to
the step.  Every transition returns `SRN_OK` and the timer handler returns
`G_SOURCE_REMOVE`. -/
theorem reconnect_scenario (env : Env) (t1 t2 t3 t4 : Nat) (srv : SrnServer)
    (hvalid : srv.is_valid = true)
    (hstate : srv.state = SRN_SERVER_STATE_DISCONNECTED) :
    let o1 := srn_server_state_transfrom env t1 srv SRN_SERVER_ACTION_CONNECT
    let o2 := srn_server_state_transfrom env t2 o1.srv SRN_SERVER_ACTION_CONNECT_FAIL
    let o3 := srn_server_reconnect_timeout env t3 o2.srv
    let o4 := srn_server_state_transfrom env t4 o3.srv SRN_SERVER_ACTION_CONNECT_FINISH
    (o1.ret = SrnRet.SRN_OK ∧ o1.srv.state = SRN_SERVER_STATE_CONNECTING ∧
      o1.effects = [Effect.sirc_connect srv.addr.host srv.addr.port] ∧
      o1.srv.reconn_interval = srv.reconn_interval) ∧
    (o2.ret = SrnRet.SRN_OK ∧ o2.srv.state = SRN_SERVER_STATE_RECONNECTING ∧
      o2.effects = [Effect.g_timeout_add srv.reconn_interval] ∧
      o2.srv.reconn_timer = t2 ∧
      o2.srv.reconn_interval = srv.reconn_interval) ∧
    (o3.result = G_SOURCE_REMOVE ∧ o3.ret = SrnRet.SRN_OK ∧
      o3.srv.state = SRN_SERVER_STATE_CONNECTING ∧
      o3.effects = [Effect.sirc_connect srv.addr.host srv.addr.port] ∧
      o3.srv.reconn_interval = srv.reconn_interval + env.SRN_SERVER_RECONN_STEP) ∧
    (o4.ret = SrnRet.SRN_OK ∧ o4.srv.state = SRN_SERVER_STATE_CONNECTED ∧
      o4.effects = [] ∧
      o4.srv.reconn_interval = env.SRN_SERVER_RECONN_STEP) := by
  obtain ⟨valid, name, state, last, addr, interval, timer⟩ := srv
  simp only at hvalid hstate
  subst hvalid hstate
  simp [srn_server_state_transfrom, srn_server_reconnect_timeout, state_machine, RET_IS_OK]

/-- Witness for the amended C9 on the example server: interval 5000 in
`Reconnecting`, 10000 after the firing, 5000 again once connected. -/
theorem reconnect_scenario_witness :
    srv_example.is_valid = true ∧
    srv_example.state = SRN_SERVER_STATE_DISCONNECTED ∧
    (srn_server_state_transfrom env_example 2
      (srn_server_state_transfrom env_example 1 srv_example SRN_SERVER_ACTION_CONNECT).srv
      SRN_SERVER_ACTION_CONNECT_FAIL).srv.reconn_interval = 5000 ∧
    (srn_server_reconnect_timeout env_example 3
      (srn_server_state_transfrom env_example 2
        (srn_server_state_transfrom env_example 1 srv_example SRN_SERVER_ACTION_CONNECT).srv
        SRN_SERVER_ACTION_CONNECT_FAIL).srv).srv.reconn_interval = 5000 + 5000 ∧
    (srn_server_state_transfrom env_example 4
      (srn_server_reconnect_timeout env_example 3
        (srn_server_state_transfrom env_example 2
          (srn_server_state_transfrom env_example 1 srv_example SRN_SERVER_ACTION_CONNECT).srv
          SRN_SERVER_ACTION_CONNECT_FAIL).srv).srv
      SRN_SERVER_ACTION_CONNECT_FINISH).srv.state = SRN_SERVER_STATE_CONNECTED :=
  ⟨rfl, rfl,
    (reconnect_scenario env_example 1 2 3 4 srv_example rfl rfl).2.1.2.2.2.2,
    (reconnect_scenario env_example 1 2 3 4 srv_example rfl rfl).2.2.1.2.2.2.2,
    (reconnect_scenario env_example 1 2 3 4 srv_example rfl rfl).2.2.2.2.1⟩

/-- C10: for every valid server in `Connected`, `Quit` returns `SRN_OK` and
yields `Quiting` with the quit command sent and no removal scheduled; then
`DisconnectFinish` returns `SRN_OK` and yields `Disconnected` with exactly one
removal task scheduled and nothing else. -/
theorem quit_scenario (env : Env) (t1 t2 : Nat) (srv : SrnServer)
    (hvalid : srv.is_valid = true)
    (hstate : srv.state = SRN_SERVER_STATE_CONNECTED) :
    let o1 := srn_server_state_transfrom env t1 srv SRN_SERVER_ACTION_QUIT
    let o2 := srn_server_state_transfrom env t2 o1.srv SRN_SERVER_ACTION_DISCONNECT_FINISH
    (o1.ret = SrnRet.SRN_OK ∧ o1.srv.state = SRN_SERVER_STATE_QUITING ∧
      o1.effects = [Effect.sirc_cmd_quit]) ∧
    (o2.ret = SrnRet.SRN_OK ∧ o2.srv.state = SRN_SERVER_STATE_DISCONNECTED ∧
      o2.effects = [Effect.g_idle_add_idle_to_rm_server]) := by
  obtain ⟨valid, name, state, last, addr, interval, timer⟩ := srv
  simp only at hvalid hstate
  subst hvalid hstate
  simp [srn_server_state_transfrom, state_machine, RET_IS_OK]

/-- Witness for C10 on the example server put in `Connected`. -/
theorem quit_scenario_witness :
    ({ srv_example with state := SRN_SERVER_STATE_CONNECTED } : SrnServer).is_valid = true ∧
    ({ srv_example with state := SRN_SERVER_STATE_CONNECTED } : SrnServer).state =
      SRN_SERVER_STATE_CONNECTED ∧
    (srn_server_state_transfrom env_example 1
      { srv_example with state := SRN_SERVER_STATE_CONNECTED }
      SRN_SERVER_ACTION_QUIT).effects = [Effect.sirc_cmd_quit] ∧
    (srn_server_state_transfrom env_example 2
      (srn_server_state_transfrom env_example 1
        { srv_example with state := SRN_SERVER_STATE_CONNECTED }
        SRN_SERVER_ACTION_QUIT).srv
      SRN_SERVER_ACTION_DISCONNECT_FINISH).effects = [Effect.g_idle_add_idle_to_rm_server] :=
  ⟨rfl, rfl,
    (quit_scenario env_example 1 2
      { srv_example with state := SRN_SERVER_STATE_CONNECTED } rfl rfl).1.2.2,
    (quit_scenario env_example 1 2
      { srv_example with state := SRN_SERVER_STATE_CONNECTED } rfl rfl).2.2.2⟩

/-! ## Deferred removal, quitting and the timer handler -/

/-- C11: for every server, state and action, `srn_server_state_transfrom`
never calls `srn_application_rm_server` itself; it schedules exactly one
`idle_to_rm_server` task when the server is valid and the pair is
`Disconnected` + `Quit`, `Quiting` + `ConnectFail`, `Quiting` +
`DisconnectFinish` or `Reconnecting` + `Quit` (each of which returns `SRN_OK`
and leaves the state `Disconnected`) and none for any other pair or on any
failure; the server is as valid when the call returns as it was before, and
the removal is what the scheduled `idle_to_rm_server` does later. -/
theorem removal_is_deferred (env : Env) (tid : Nat) (srv : SrnServer)
    (action : SrnServerAction) :
    Effect.srn_application_rm_server ∉ (srn_server_state_transfrom env tid srv action).effects ∧
    (srn_server_state_transfrom env tid srv action).effects.count
        Effect.g_idle_add_idle_to_rm_server =
      (if srv.is_valid = true ∧ removal_pair srv.state action = true then 1 else 0) ∧
    (srv.is_valid = true → removal_pair srv.state action = true →
      (srn_server_state_transfrom env tid srv action).ret = SrnRet.SRN_OK ∧
      (srn_server_state_transfrom env tid srv action).srv.state =
        SRN_SERVER_STATE_DISCONNECTED) ∧
    ((srn_server_state_transfrom env tid srv action).ret ≠ SrnRet.SRN_OK →
      (srn_server_state_transfrom env tid srv action).effects.count
        Effect.g_idle_add_idle_to_rm_server = 0) ∧
    (srn_server_state_transfrom env tid srv action).srv.is_valid = srv.is_valid ∧
    (idle_to_rm_server (srn_server_state_transfrom env tid srv action).srv).effects =
      (if srv.is_valid = true then [Effect.srn_application_rm_server] else []) := by
  obtain ⟨valid, name, state, last, addr, interval, timer⟩ := srv
  cases valid
  · simp [srn_server_state_transfrom, idle_to_rm_server]
  · cases state <;> cases action <;>
      simp [srn_server_state_transfrom, state_machine, RET_IS_OK, removal_pair,
        idle_to_rm_server]

/-- Witness for C11 on `Reconnecting` + `Quit` with timer handle 4: the timer
is removed, one removal task is scheduled, and the server is still valid. -/
theorem removal_is_deferred_witness :
    ({ srv_example with state := SRN_SERVER_STATE_RECONNECTING, reconn_timer := 4 } :
      SrnServer).is_valid = true ∧
    removal_pair SRN_SERVER_STATE_RECONNECTING SRN_SERVER_ACTION_QUIT = true ∧
    (srn_server_state_transfrom env_example 7
        { srv_example with state := SRN_SERVER_STATE_RECONNECTING, reconn_timer := 4 }
        SRN_SERVER_ACTION_QUIT).ret = SrnRet.SRN_OK ∧
    (srn_server_state_transfrom env_example 7
        { srv_example with state := SRN_SERVER_STATE_RECONNECTING, reconn_timer := 4 }
        SRN_SERVER_ACTION_QUIT).srv.state = SRN_SERVER_STATE_DISCONNECTED ∧
    (srn_server_state_transfrom env_example 7
        { srv_example with state := SRN_SERVER_STATE_RECONNECTING, reconn_timer := 4 }
        SRN_SERVER_ACTION_QUIT).srv.is_valid = true :=
  ⟨rfl, rfl,
    ((removal_is_deferred env_example 7
      { srv_example with state := SRN_SERVER_STATE_RECONNECTING, reconn_timer := 4 }
      SRN_SERVER_ACTION_QUIT).2.2.1 rfl rfl).1,
    ((removal_is_deferred env_example 7
      { srv_example with state := SRN_SERVER_STATE_RECONNECTING, reconn_timer := 4 }
      SRN_SERVER_ACTION_QUIT).2.2.1 rfl rfl).2,
    (removal_is_deferred env_example 7
      { srv_example with state := SRN_SERVER_STATE_RECONNECTING, reconn_timer := 4 }
      SRN_SERVER_ACTION_QUIT).2.2.2.2.1⟩

/-- C18: for a valid server, `Quit` returns `SRN_OK` in `Disconnected` and
`Reconnecting`, where the state becomes `Disconnected` and the removal is
scheduled, and in `Connecting`, `Connected` and `Quiting`, where the state
becomes `Quiting` and no removal is scheduled; in `Disconnecting`, `Quit` is
rejected and the server is unchanged, the only action accepted there is
`DisconnectFinish`, which moves the server to `Disconnected`, and `Quit`
applied after it is accepted. -/
theorem quit_accepted_except_disconnecting (env : Env) (tid tid2 : Nat) (srv : SrnServer)
    (action : SrnServerAction) (hvalid : srv.is_valid = true) :
    ((srv.state = SRN_SERVER_STATE_DISCONNECTED ∨ srv.state = SRN_SERVER_STATE_RECONNECTING) →
      (srn_server_state_transfrom env tid srv SRN_SERVER_ACTION_QUIT).ret = SrnRet.SRN_OK ∧
      (srn_server_state_transfrom env tid srv SRN_SERVER_ACTION_QUIT).srv.state =
        SRN_SERVER_STATE_DISCONNECTED ∧
      (srn_server_state_transfrom env tid srv SRN_SERVER_ACTION_QUIT).effects.count
        Effect.g_idle_add_idle_to_rm_server = 1) ∧
    ((srv.state = SRN_SERVER_STATE_CONNECTING ∨ srv.state = SRN_SERVER_STATE_CONNECTED ∨
        srv.state = SRN_SERVER_STATE_QUITING) →
      (srn_server_state_transfrom env tid srv SRN_SERVER_ACTION_QUIT).ret = SrnRet.SRN_OK ∧
      (srn_server_state_transfrom env tid srv SRN_SERVER_ACTION_QUIT).srv.state =
        SRN_SERVER_STATE_QUITING ∧
      (srn_server_state_transfrom env tid srv SRN_SERVER_ACTION_QUIT).effects.count
        Effect.g_idle_add_idle_to_rm_server = 0) ∧
    (srv.state = SRN_SERVER_STATE_DISCONNECTING →
      (srn_server_state_transfrom env tid srv SRN_SERVER_ACTION_QUIT).ret ≠ SrnRet.SRN_OK ∧
      (srn_server_state_transfrom env tid srv SRN_SERVER_ACTION_QUIT).srv = srv ∧
      ((srn_server_state_transfrom env tid srv action).ret = SrnRet.SRN_OK ↔
        action = SRN_SERVER_ACTION_DISCONNECT_FINISH) ∧
      (srn_server_state_transfrom env tid srv SRN_SERVER_ACTION_DISCONNECT_FINISH).srv.state =
        SRN_SERVER_STATE_DISCONNECTED ∧
      (srn_server_state_transfrom env tid2
        (srn_server_state_transfrom env tid srv SRN_SERVER_ACTION_DISCONNECT_FINISH).srv
        SRN_SERVER_ACTION_QUIT).ret = SrnRet.SRN_OK) := by
  obtain ⟨valid, name, state, last, addr, interval, timer⟩ := srv
  simp only at hvalid
  subst hvalid
  cases state <;> cases action <;>
    simp [srn_server_state_transfrom, state_machine, RET_IS_OK]

/-- Witness for C18: on a valid server in `Connecting`, `Quit` is accepted and
yields `Quiting`; in `Disconnecting` it is rejected, and accepted once
`DisconnectFinish` has been applied. -/
theorem quit_accepted_except_disconnecting_witness :
    ({ srv_example with state := SRN_SERVER_STATE_CONNECTING } : SrnServer).is_valid = true ∧
    (srn_server_state_transfrom env_example 7
        { srv_example with state := SRN_SERVER_STATE_CONNECTING }
        SRN_SERVER_ACTION_QUIT).ret = SrnRet.SRN_OK ∧
    (srn_server_state_transfrom env_example 7
        { srv_example with state := SRN_SERVER_STATE_CONNECTING }
        SRN_SERVER_ACTION_QUIT).srv.state = SRN_SERVER_STATE_QUITING ∧
    (srn_server_state_transfrom env_example 7
        { srv_example with state := SRN_SERVER_STATE_DISCONNECTING }
        SRN_SERVER_ACTION_QUIT).ret ≠ SrnRet.SRN_OK ∧
    (srn_server_state_transfrom env_example 8
        (srn_server_state_transfrom env_example 7
          { srv_example with state := SRN_SERVER_STATE_DISCONNECTING }
          SRN_SERVER_ACTION_DISCONNECT_FINISH).srv
        SRN_SERVER_ACTION_QUIT).ret = SrnRet.SRN_OK :=
  ⟨rfl,
    ((quit_accepted_except_disconnecting env_example 7 8
      { srv_example with state := SRN_SERVER_STATE_CONNECTING } SRN_SERVER_ACTION_QUIT
      rfl).2.1 (Or.inl rfl)).1,
    ((quit_accepted_except_disconnecting env_example 7 8
      { srv_example with state := SRN_SERVER_STATE_CONNECTING } SRN_SERVER_ACTION_QUIT
      rfl).2.1 (Or.inl rfl)).2.1,
    ((quit_accepted_except_disconnecting env_example 7 8
      { srv_example with state := SRN_SERVER_STATE_DISCONNECTING } SRN_SERVER_ACTION_QUIT
      rfl).2.2 rfl).1,
    ((quit_accepted_except_disconnecting env_example 7 8
      { srv_example with state := SRN_SERVER_STATE_DISCONNECTING } SRN_SERVER_ACTION_QUIT
      rfl).2.2 rfl).2.2.2.2⟩

/-- One fail/fire round adds the step to the interval, whatever the server. -/
theorem fail_fire_round_interval (env : Env) (tid tid2 : Nat) (srv : SrnServer) :
    (srn_server_reconnect_timeout env tid2
        (srn_server_state_transfrom env tid srv SRN_SERVER_ACTION_CONNECT_FAIL).srv
      ).srv.reconn_interval = srv.reconn_interval + env.SRN_SERVER_RECONN_STEP := by
  rw [reconnect_timeout_reconn_interval, transfrom_reconn_interval env tid srv _ (by simp)]

/-- One fail/fire round takes a valid `Connecting` server back to
`Connecting`, both events being accepted. -/
theorem fail_fire_round_state (env : Env) (tid tid2 : Nat) (srv : SrnServer)
    (hvalid : srv.is_valid = true) (hstate : srv.state = SRN_SERVER_STATE_CONNECTING) :
    (srn_server_state_transfrom env tid srv SRN_SERVER_ACTION_CONNECT_FAIL).ret =
      SrnRet.SRN_OK ∧
    (srn_server_reconnect_timeout env tid2
        (srn_server_state_transfrom env tid srv SRN_SERVER_ACTION_CONNECT_FAIL).srv).ret =
      SrnRet.SRN_OK ∧
    (srn_server_reconnect_timeout env tid2
        (srn_server_state_transfrom env tid srv SRN_SERVER_ACTION_CONNECT_FAIL).srv
      ).srv.is_valid = true ∧
    (srn_server_reconnect_timeout env tid2
        (srn_server_state_transfrom env tid srv SRN_SERVER_ACTION_CONNECT_FAIL).srv
      ).srv.state = SRN_SERVER_STATE_CONNECTING := by
  obtain ⟨valid, name, state, last, addr, interval, timer⟩ := srv
  simp only at hvalid hstate
  subst hvalid hstate
  simp [srn_server_state_transfrom, srn_server_reconnect_timeout, state_machine, RET_IS_OK]

/-- After the rounds of `fail_fire_rounds` the interval is the starting value
plus the step times the number of rounds. -/
theorem fail_fire_rounds_interval (env : Env) (srv : SrnServer) (tids : List Nat) :
    (run env srv (fail_fire_rounds tids)).reconn_interval =
      srv.reconn_interval + (tids.length : Int) * env.SRN_SERVER_RECONN_STEP := by
  induction tids generalizing srv with
  | nil => simp [fail_fire_rounds, run]
  | cons tid tids ih =>
    simp only [fail_fire_rounds, run, Event.apply, List.length_cons]
    rw [ih, fail_fire_round_interval]
    push_cast
    ring

/-- From a valid `Connecting` server the rounds of `fail_fire_rounds` end in
`Connecting` again. -/
theorem fail_fire_rounds_state (env : Env) (srv : SrnServer) (tids : List Nat)
    (hvalid : srv.is_valid = true) (hstate : srv.state = SRN_SERVER_STATE_CONNECTING) :
    (run env srv (fail_fire_rounds tids)).state = SRN_SERVER_STATE_CONNECTING := by
  induction tids generalizing srv with
  | nil => simpa [fail_fire_rounds, run] using hstate
  | cons tid tids ih =>
    simp only [fail_fire_rounds, run, Event.apply]
    exact ih _ (fail_fire_round_state env tid tid srv hvalid hstate).2.2.1
      (fail_fire_round_state env tid tid srv hvalid hstate).2.2.2

/-- The rounds of `fail_fire_rounds` contain no accepted `ConnectFinish`. -/
theorem fail_fire_rounds_no_connect_finish (env : Env) (srv : SrnServer) (tids : List Nat) :
    no_connect_finish_accepted env srv (fail_fire_rounds tids) = true := by
  induction tids generalizing srv with
  | nil => rfl
  | cons tid tids ih =>
    simp [fail_fire_rounds, no_connect_finish_accepted, Event.accepts_connect_finish, ih]

/-- C17: for every server, `srn_server_reconnect_timeout` adds exactly
`SRN_SERVER_RECONN_STEP` to `reconn_interval` (no cap, and whether or not the
nested action is accepted), applies `Connect` through
`srn_server_state_transfrom` to the server so updated, and returns
`G_SOURCE_REMOVE`; for a valid server in `Reconnecting` the nested transition
returns `SRN_OK`, the state becomes `Connecting` and `sirc_connect` to the
server address is the one call made; and after any number n of consecutive
fail/fire rounds (no `ConnectFinish` among them) the interval is the starting
value plus n times the step, a valid server that started in `Connecting` being
in `Connecting` again. -/
theorem reconnect_timeout_fires (env : Env) (tid : Nat) (srv : SrnServer) (tids : List Nat) :
    (srn_server_reconnect_timeout env tid srv).result = G_SOURCE_REMOVE ∧
    (srn_server_reconnect_timeout env tid srv).srv.reconn_interval =
      srv.reconn_interval + env.SRN_SERVER_RECONN_STEP ∧
    ((srn_server_reconnect_timeout env tid srv).ret =
        (srn_server_state_transfrom env tid
          { srv with reconn_interval := srv.reconn_interval + env.SRN_SERVER_RECONN_STEP }
          SRN_SERVER_ACTION_CONNECT).ret ∧
      (srn_server_reconnect_timeout env tid srv).srv =
        (srn_server_state_transfrom env tid
          { srv with reconn_interval := srv.reconn_interval + env.SRN_SERVER_RECONN_STEP }
          SRN_SERVER_ACTION_CONNECT).srv ∧
      (srn_server_reconnect_timeout env tid srv).effects =
        (srn_server_state_transfrom env tid
          { srv with reconn_interval := srv.reconn_interval + env.SRN_SERVER_RECONN_STEP }
          SRN_SERVER_ACTION_CONNECT).effects) ∧
    (srv.is_valid = true → srv.state = SRN_SERVER_STATE_RECONNECTING →
      (srn_server_reconnect_timeout env tid srv).ret = SrnRet.SRN_OK ∧
      (srn_server_reconnect_timeout env tid srv).srv.state = SRN_SERVER_STATE_CONNECTING ∧
      (srn_server_reconnect_timeout env tid srv).effects =
        [Effect.sirc_connect srv.addr.host srv.addr.port]) ∧
    (run env srv (fail_fire_rounds tids)).reconn_interval =
      srv.reconn_interval + (tids.length : Int) * env.SRN_SERVER_RECONN_STEP ∧
    no_connect_finish_accepted env srv (fail_fire_rounds tids) = true ∧
    (srv.is_valid = true → srv.state = SRN_SERVER_STATE_CONNECTING →
      (run env srv (fail_fire_rounds tids)).state = SRN_SERVER_STATE_CONNECTING) := by
  refine ⟨rfl, reconnect_timeout_reconn_interval env tid srv, ⟨rfl, rfl, rfl⟩, ?_,
    fail_fire_rounds_interval env srv tids, fail_fire_rounds_no_connect_finish env srv tids,
    fail_fire_rounds_state env srv tids⟩
  obtain ⟨valid, name, state, last, addr, interval, timer⟩ := srv
  intro hvalid hstate
  simp only at hvalid hstate
  subst hvalid hstate
  simp [srn_server_state_transfrom, srn_server_reconnect_timeout, state_machine, RET_IS_OK]

/-- Witness for C17: the timer fires on the example server put in
`Reconnecting`, and three fail/fire rounds from `Connecting` raise the
interval from 5000 to 20000. -/
theorem reconnect_timeout_fires_witness :
    ({ srv_example with state := SRN_SERVER_STATE_RECONNECTING, reconn_timer := 4 } :
      SrnServer).is_valid = true ∧
    (srn_server_reconnect_timeout env_example 7
        { srv_example with state := SRN_SERVER_STATE_RECONNECTING, reconn_timer := 4 }
      ).srv.state = SRN_SERVER_STATE_CONNECTING ∧
    (srn_server_reconnect_timeout env_example 7
        { srv_example with state := SRN_SERVER_STATE_RECONNECTING, reconn_timer := 4 }
      ).effects = [Effect.sirc_connect "irc.example.org" 6667] ∧
    (run env_example { srv_example with state := SRN_SERVER_STATE_CONNECTING }
      (fail_fire_rounds [1, 2, 3])).reconn_interval = 5000 + ((3 : Nat) : Int) * 5000 ∧
    (run env_example { srv_example with state := SRN_SERVER_STATE_CONNECTING }
      (fail_fire_rounds [1, 2, 3])).state = SRN_SERVER_STATE_CONNECTING :=
  ⟨rfl,
    ((reconnect_timeout_fires env_example 7
      { srv_example with state := SRN_SERVER_STATE_RECONNECTING, reconn_timer := 4 }
      []).2.2.2.1 rfl rfl).2.1,
    ((reconnect_timeout_fires env_example 7
      { srv_example with state := SRN_SERVER_STATE_RECONNECTING, reconn_timer := 4 }
      []).2.2.2.1 rfl rfl).2.2,
    (reconnect_timeout_fires env_example 7
      { srv_example with state := SRN_SERVER_STATE_CONNECTING } [1, 2, 3]).2.2.2.2.1,
    (reconnect_timeout_fires env_example 7
      { srv_example with state := SRN_SERVER_STATE_CONNECTING } [1, 2, 3]).2.2.2.2.2.2
      rfl rfl⟩

/-! ## At most one transport connect at a time -/

/-- An event starts a transport connect only on a valid server in
`Disconnected` or `Reconnecting`; the event is accepted, `sirc_connect` to the
server address is the one call it makes, and the server is left valid and
`Connecting`. -/
theorem starts_connect_from (env : Env) (srv : SrnServer) (e : Event)
    (h : e.starts_connect env srv = true) :
    srv.is_valid = true ∧
    (srv.state = SRN_SERVER_STATE_DISCONNECTED ∨ srv.state = SRN_SERVER_STATE_RECONNECTING) ∧
    e.ret env srv = SrnRet.SRN_OK ∧
    e.effects env srv = [Effect.sirc_connect srv.addr.host srv.addr.port] ∧
    (e.apply env srv).state = SRN_SERVER_STATE_CONNECTING := by
  obtain ⟨valid, name, state, last, addr, interval, timer⟩ := srv
  cases e with
  | transfrom action tid =>
    cases valid
    · simp [Event.starts_connect, Event.effects, srn_server_state_transfrom] at h
    · cases state <;> cases action <;>
        simp [Event.starts_connect, Event.effects, Event.ret, Event.apply,
          Effect.is_sirc_connect, srn_server_state_transfrom, state_machine, RET_IS_OK] at h ⊢
  | reconnect_timeout tid =>
    cases valid
    · simp [Event.starts_connect, Event.effects, srn_server_reconnect_timeout,
        srn_server_state_transfrom] at h
    · cases state <;>
        simp [Event.starts_connect, Event.effects, Event.ret, Event.apply,
          Effect.is_sirc_connect, srn_server_reconnect_timeout, srn_server_state_transfrom,
          state_machine, RET_IS_OK] at h ⊢

/-- While the server is in `Connecting`, `Connected`, `Disconnecting` or
`Quiting`, an event that is not an accepted `ConnectFail` or
`DisconnectFinish` leaves it in one of these states. -/
theorem in_session_step (env : Env) (srv : SrnServer) (e : Event)
    (hin : srv.state.in_session = true)
    (h : e.accepts_worker_end env srv = false) :
    (e.apply env srv).state.in_session = true := by
  obtain ⟨valid, name, state, last, addr, interval, timer⟩ := srv
  cases e with
  | transfrom action tid =>
    cases valid
    · simpa [Event.apply, srn_server_state_transfrom] using hin
    · cases state <;> cases action <;>
        simp [Event.apply, Event.accepts_worker_end, SrnServerState.in_session,
          srn_server_state_transfrom, state_machine, RET_IS_OK] at hin h ⊢
  | reconnect_timeout tid =>
    cases valid
    · simpa [Event.apply, srn_server_reconnect_timeout, srn_server_state_transfrom] using hin
    · cases state <;>
        simp [Event.apply, SrnServerState.in_session, srn_server_reconnect_timeout,
          srn_server_state_transfrom, state_machine, RET_IS_OK] at hin ⊢

/-- A sequence without accepted `ConnectFail` or `DisconnectFinish` keeps the
server in `Connecting`, `Connected`, `Disconnecting` or `Quiting`. -/
theorem in_session_run (env : Env) (srv : SrnServer) (evs : List Event)
    (hin : srv.state.in_session = true)
    (h : worker_end_accepted env srv evs = false) :
    (run env srv evs).state.in_session = true := by
  induction evs generalizing srv with
  | nil => simpa [run] using hin
  | cons e es ih =>
    simp only [worker_end_accepted, Bool.or_eq_false_iff] at h
    exact ih _ (in_session_step env srv e hin h.1) h.2

/-- C12: in every finite sequence of `srn_server_state_transfrom` calls and
reconnect-timer firings on one server, an event that starts `sirc_connect` is
an accepted transition of a valid server from `Disconnected` or `Reconnecting`
into `Connecting` whose only call is that `sirc_connect`; `Connect` applied in
`Connecting` is rejected and makes no call; and whenever two events of the
sequence start `sirc_connect`, some event strictly between them is an accepted
`ConnectFail` or `DisconnectFinish`. -/
theorem one_connect_at_a_time (env : Env) (srv : SrnServer) (pre mid : List Event)
    (e1 e2 : Event) (tid : Nat) (s : SrnServer)
    (h1 : e1.starts_connect env (run env srv pre) = true)
    (h2 : e2.starts_connect env (run env srv (pre ++ e1 :: mid)) = true) :
    ((run env srv pre).is_valid = true ∧
      ((run env srv pre).state = SRN_SERVER_STATE_DISCONNECTED ∨
        (run env srv pre).state = SRN_SERVER_STATE_RECONNECTING) ∧
      e1.ret env (run env srv pre) = SrnRet.SRN_OK ∧
      e1.effects env (run env srv pre) =
        [Effect.sirc_connect (run env srv pre).addr.host (run env srv pre).addr.port] ∧
      (run env srv (pre ++ [e1])).state = SRN_SERVER_STATE_CONNECTING) ∧
    (s.state = SRN_SERVER_STATE_CONNECTING →
      (srn_server_state_transfrom env tid s SRN_SERVER_ACTION_CONNECT).ret ≠ SrnRet.SRN_OK ∧
      (srn_server_state_transfrom env tid s SRN_SERVER_ACTION_CONNECT).effects = [] ∧
      (Event.transfrom SRN_SERVER_ACTION_CONNECT tid).starts_connect env s = false) ∧
    worker_end_accepted env (run env srv (pre ++ [e1])) mid = true := by
  have hfrom := starts_connect_from env (run env srv pre) e1 h1
  have hrun : run env srv (pre ++ [e1]) = e1.apply env (run env srv pre) := by
    rw [run_append]; rfl
  refine ⟨⟨hfrom.1, hfrom.2.1, hfrom.2.2.1, hfrom.2.2.2.1, ?_⟩, ?_, ?_⟩
  · rw [hrun]; exact hfrom.2.2.2.2
  · intro hs
    obtain ⟨valid, name, state, last, addr, interval, timer⟩ := s
    simp only at hs
    subst hs
    cases valid <;>
      simp [Event.starts_connect, Event.effects, srn_server_state_transfrom, state_machine,
        RET_IS_OK]
  · by_contra hnone
    have hnone2 : worker_end_accepted env (run env srv (pre ++ [e1])) mid = false := by
      simpa using hnone
    have hin : (run env srv (pre ++ [e1])).state.in_session = true := by
      rw [hrun, hfrom.2.2.2.2]; rfl
    have hlater := in_session_run env _ mid hin hnone2
    have hsplit : run env srv (pre ++ e1 :: mid) = run env (run env srv (pre ++ [e1])) mid := by
      rw [← run_append]; simp
    have hfrom2 := starts_connect_from env _ e2 h2
    rw [hsplit] at hfrom2
    rcases hfrom2.2.1 with hd | hr
    · rw [hd] at hlater; simp [SrnServerState.in_session] at hlater
    · rw [hr] at hlater; simp [SrnServerState.in_session] at hlater

/-- Witness for C12: the example server connects, the connect fails, and the
timer firing connects again; the accepted `ConnectFail` lies between the two
connects, and a `Connect` applied while `Connecting` is rejected. -/
theorem one_connect_at_a_time_witness :
    (Event.transfrom SRN_SERVER_ACTION_CONNECT 1).starts_connect env_example
      (run env_example srv_example []) = true ∧
    (Event.reconnect_timeout 3).starts_connect env_example
      (run env_example srv_example
        ([] ++ Event.transfrom SRN_SERVER_ACTION_CONNECT 1 ::
          [Event.transfrom SRN_SERVER_ACTION_CONNECT_FAIL 2])) = true ∧
    (run env_example srv_example
      ([] ++ [Event.transfrom SRN_SERVER_ACTION_CONNECT 1])).state =
      SRN_SERVER_STATE_CONNECTING ∧
    (srn_server_state_transfrom env_example 5
      { srv_example with state := SRN_SERVER_STATE_CONNECTING }
      SRN_SERVER_ACTION_CONNECT).effects = [] ∧
    worker_end_accepted env_example
      (run env_example srv_example ([] ++ [Event.transfrom SRN_SERVER_ACTION_CONNECT 1]))
      [Event.transfrom SRN_SERVER_ACTION_CONNECT_FAIL 2] = true :=
  ⟨rfl, rfl,
    (one_connect_at_a_time env_example srv_example []
      [Event.transfrom SRN_SERVER_ACTION_CONNECT_FAIL 2]
      (Event.transfrom SRN_SERVER_ACTION_CONNECT 1) (Event.reconnect_timeout 3) 5
      { srv_example with state := SRN_SERVER_STATE_CONNECTING } rfl rfl).1.2.2.2.2,
    ((one_connect_at_a_time env_example srv_example []
      [Event.transfrom SRN_SERVER_ACTION_CONNECT_FAIL 2]
      (Event.transfrom SRN_SERVER_ACTION_CONNECT 1) (Event.reconnect_timeout 3) 5
      { srv_example with state := SRN_SERVER_STATE_CONNECTING } rfl rfl).2.1 rfl).2.1,
    (one_connect_at_a_time env_example srv_example []
      [Event.transfrom SRN_SERVER_ACTION_CONNECT_FAIL 2]
      (Event.transfrom SRN_SERVER_ACTION_CONNECT 1) (Event.reconnect_timeout 3) 5
      { srv_example with state := SRN_SERVER_STATE_CONNECTING } rfl rfl).2.2⟩

/-! ## The handoff of the receive buffer -/

/-- An `idle_sirc_on_disconnect` source is not the source of a read line. -/
theorem count_recv_on_disconnect :
    List.count recv_source
      [IdleSource.mk Priority.G_PRIORITY_HIGH_IDLE IdleFunc.idle_sirc_on_disconnect] = 0 := by
  decide

/-- An `idle_sirc_on_connect` source is not the source of a read line. -/
theorem count_recv_on_connect :
    List.count recv_source
      [IdleSource.mk Priority.G_PRIORITY_HIGH_IDLE IdleFunc.idle_sirc_on_connect] = 0 := by
  decide

/-- An `idle_sirc_recv` source is the source of a read line. -/
theorem count_recv_recv :
    List.count recv_source
      [IdleSource.mk Priority.G_PRIORITY_HIGH_IDLE IdleFunc.idle_sirc_recv] = 1 := by
  decide

/-- Adding a high-priority source keeps all pending sources at high
priority. -/
theorem high_priority_append (queue : List IdleSource) (f : IdleFunc)
    (hprio : ∀ src ∈ queue, src.priority = Priority.G_PRIORITY_HIGH_IDLE) :
    ∀ src : IdleSource,
      src ∈ queue ∨ src = IdleSource.mk Priority.G_PRIORITY_HIGH_IDLE f →
        src.priority = Priority.G_PRIORITY_HIGH_IDLE := by
  rintro src (hmem | rfl)
  · exact hprio src hmem
  · rfl

/-- Every step keeps the handoff state. -/
theorem handoff_step (senv : SircEnv) (sys next : System) (st : Step)
    (h : sys.handoff) (hs : sys.step senv st = some next) : next.handoff := by
  obtain ⟨sirc, worker, queue, calls, lr, lp⟩ := sys
  obtain ⟨hle, hread, hpend, hnone, hfree, hprio⟩ := h
  simp only [System.pending_recv] at hle hread hpend hnone hfree hprio
  cases st with
  | sck_get_socket_returns sock =>
    cases worker <;> simp [System.step, System.step_at] at hs
    subst hs
    by_cases hsock : sock < 0
    · simp [System.handoff, System.pending_recv, th_sirc_connect, hsock,
        count_recv_on_disconnect]
      simp_all
      exact high_priority_append queue _ hprio
    · simp [System.handoff, System.pending_recv, th_sirc_connect, hsock,
        count_recv_on_connect]
      simp_all
      exact high_priority_append queue _ hprio
  | g_mutex_lock_returns =>
    cases worker <;> simp [System.step, System.step_at] at hs
    cases hm : g_mutex_lock sirc with
    | none => simp [hm] at hs
    | some locked =>
      simp [hm] at hs
      subst hs
      have hfreelock : sirc.mutex = false ∧ locked = { sirc with mutex := true } := by
        unfold g_mutex_lock at hm
        split at hm
        · simp at hm
        · simp at hm; simp_all
      obtain ⟨hf, rfl⟩ := hfreelock
      have hzero : List.count recv_source queue = 0 := by
        rcases Nat.le_one_iff_eq_zero_or_eq_one.mp hle with h0 | h1
        · exact h0
        · have := (hpend h1).1
          simp [hf] at this
      simp [System.handoff, System.pending_recv, hzero]
      simp_all
  | sck_readline_writes data =>
    cases worker <;> simp [System.step, System.step_at] at hs
    subst hs
    simp at hread
    simp [System.handoff, System.pending_recv, hread]
    simp_all
  | sck_readline_returns rd =>
    cases worker <;> simp [System.step, System.step_at] at hs
    subst hs
    simp at hread
    by_cases hret : rd.ret = senv.SRN_ERR
    · simp [System.handoff, System.pending_recv, th_sirc_recv_locked, g_mutex_unlock, hret,
        hread, count_recv_on_disconnect]
      simp_all
      exact high_priority_append queue _ hprio
    · simp [System.handoff, System.pending_recv, th_sirc_recv_locked, hret,
        hread, count_recv_recv]
      simp_all
      exact high_priority_append queue _ hprio
  | th_sirc_proc_tests =>
    cases worker <;> simp [System.step, System.step_at] at hs
    subst hs
    simp [System.handoff, System.pending_recv]
    refine ⟨hle, ?_, hpend, hnone, ?_, hprio⟩
    · intro hw; split at hw <;> simp at hw
    · intro h0 _; exact hfree h0 (by simp)
  | dispatch src =>
    have hs2 : src ∈ queue ∧
        next = { sirc := (call_idle_func senv sirc src.func).sirc, worker := worker,
                 queue := queue.erase src ++ (call_idle_func senv sirc src.func).idle,
                 calls := calls ++ (call_idle_func senv sirc src.func).calls,
                 lines_read := lr,
                 lines_parsed :=
                  if src.func = IdleFunc.idle_sirc_recv then lp ++ [sirc.buf] else lp } := by
      cases worker <;> simp [System.step, System.step_at] at hs <;>
        exact ⟨hs.1, hs.2.symm⟩
    obtain ⟨hmem, rfl⟩ := hs2
    have hhigh := hprio src hmem
    obtain ⟨prio, func⟩ := src
    simp only at hhigh
    subst hhigh
    have hsub : ∀ s ∈ queue.erase (IdleSource.mk Priority.G_PRIORITY_HIGH_IDLE func),
        s.priority = Priority.G_PRIORITY_HIGH_IDLE :=
      fun s hsmem => hprio s (List.mem_of_mem_erase hsmem)
    cases func with
    | idle_sirc_recv =>
      have hone : List.count recv_source queue = 1 := by
        have hpos : 1 ≤ List.count recv_source queue := List.one_le_count_iff.mpr hmem
        omega
      have hbefore := hpend hone
      have hnotread : worker ≠ WorkerPc.sck_readline := by
        intro hw
        have := (hread hw).2
        omega
      have herase : List.count recv_source (queue.erase recv_source) = 0 := by
        rw [List.count_erase_self]; omega
      have herase2 : List.count recv_source
          (queue.erase (IdleSource.mk Priority.G_PRIORITY_HIGH_IDLE IdleFunc.idle_sirc_recv))
          = 0 := herase
      simp [System.handoff, System.pending_recv, call_idle_func, idle_sirc_recv,
        g_mutex_unlock, herase2, hnotread, hbefore.2]
      exact hsub
    | idle_sirc_on_connect =>
      have hne : recv_source ≠
          IdleSource.mk Priority.G_PRIORITY_HIGH_IDLE IdleFunc.idle_sirc_on_connect := by
        decide
      simp [System.handoff, System.pending_recv, call_idle_func, idle_sirc_on_connect,
        List.count_erase_of_ne hne]
      exact ⟨hle, hread, hpend, hnone, hfree, hsub⟩
    | idle_sirc_on_disconnect =>
      have hne : recv_source ≠
          IdleSource.mk Priority.G_PRIORITY_HIGH_IDLE IdleFunc.idle_sirc_on_disconnect := by
        decide
      simp [System.handoff, System.pending_recv, call_idle_func, idle_sirc_on_disconnect,
        List.count_erase_of_ne hne]
      exact ⟨hle, hread, hpend, hnone, hfree, hsub⟩
  | sirc_disconnect =>
    have hs2 : next = { sirc := sirc_disconnect sirc, worker := worker, queue := queue,
                        calls := calls, lines_read := lr, lines_parsed := lp } := by
      cases worker <;> simp [System.step, System.step_at] at hs <;> exact hs.symm
    subst hs2
    simp [System.handoff, System.pending_recv, sirc_disconnect]
    exact ⟨hle, hread, hpend, hnone, hfree, hprio⟩

/-- Every finite sequence of steps keeps the handoff state. -/
theorem handoff_exec (senv : SircEnv) (sys final : System) (steps : List Step)
    (h : sys.handoff) (hx : sys.exec senv steps = some final) : final.handoff := by
  induction steps generalizing sys with
  | nil =>
    simp only [System.exec, Option.some.injEq] at hx
    exact hx ▸ h
  | cons st sts ih =>
    simp only [System.exec] at hx
    cases hstep : sys.step senv st with
    | none => simp [hstep] at hx
    | some next =>
      simp only [hstep] at hx
      exact ih next (handoff_step senv sys next st h hstep) hx

/-- A new session whose first worker has just been spawned is in the handoff
state. -/
theorem spawned_handoff : System.spawned.handoff := by
  simp [System.handoff, System.pending_recv, System.spawned, sirc_new_session]

/-- C13: in every interleaving of the worker steps with the main loop running
pending sources (and calling `sirc_disconnect`), started in the handoff state
(a new session is in it), at most one read line is unparsed at any time and
lines are parsed in the order they were read: the lines read are the lines
parsed followed by at most one more line, the one in the buffer; at most one
`idle_sirc_recv` is pending; while the worker is in `sck_readline` it holds
the lock, no `idle_sirc_recv` is pending and every line read before has been
parsed; and while an `idle_sirc_recv` is pending the lock is held, so that the
worker cannot take the lock and no `sck_readline` into the buffer is under
way. -/
theorem receive_handoff_backpressure (senv : SircEnv) (start sys : System)
    (steps : List Step)
    (hstart : start.handoff) (hexec : start.exec senv steps = some sys) :
    (∃ unparsed : List String,
      sys.lines_read = sys.lines_parsed ++ unparsed ∧ unparsed.length ≤ 1 ∧
      (unparsed = [] ∨ unparsed = [sys.sirc.buf]) ∧
      unparsed.length = sys.pending_recv) ∧
    sys.pending_recv ≤ 1 ∧
    (sys.worker = WorkerPc.sck_readline →
      sys.sirc.mutex = true ∧ sys.pending_recv = 0 ∧ sys.lines_read = sys.lines_parsed) ∧
    (sys.pending_recv = 1 →
      sys.sirc.mutex = true ∧ sys.worker ≠ WorkerPc.sck_readline ∧
      sys.step senv Step.g_mutex_lock_returns = none ∧
      (∀ rd, sys.step senv (Step.sck_readline_returns rd) = none) ∧
      (∀ data, sys.step senv (Step.sck_readline_writes data) = none)) := by
  obtain ⟨hle, hread, hpend, hnone, hfree, hprio⟩ := handoff_exec senv start sys steps hstart hexec
  have hnotread : sys.pending_recv = 1 → sys.worker ≠ WorkerPc.sck_readline := by
    intro h1 hw
    have := (hread hw).2
    omega
  refine ⟨?_, hle, ?_, ?_⟩
  · rcases Nat.le_one_iff_eq_zero_or_eq_one.mp hle with h0 | h1
    · exact ⟨[], by simpa using hnone h0, by simp, Or.inl rfl, by simp [h0]⟩
    · exact ⟨[sys.sirc.buf], (hpend h1).2, by simp, Or.inr rfl, by simp [h1]⟩
  · intro hw
    exact ⟨(hread hw).1, (hread hw).2, hnone (hread hw).2⟩
  · intro h1
    have hw := hnotread h1
    have hm := (hpend h1).1
    refine ⟨hm, hw, ?_, ?_, ?_⟩
    · cases hpc : sys.worker <;> simp [System.step, System.step_at, hpc, g_mutex_lock, hm]
    · intro rd
      cases hpc : sys.worker <;> simp_all [System.step, System.step_at]
    · intro data
      cases hpc : sys.worker <;> simp_all [System.step, System.step_at]

/-- Witness for C13: on a new session the worker opens descriptor 5, takes the
lock, reads "PING :server" and makes the exit tests; the line is then
unparsed, its `idle_sirc_recv` is pending and the worker cannot take the lock
for a second read. -/
theorem receive_handoff_backpressure_witness :
    System.spawned.handoff ∧
    System.spawned.exec senv_example
      [Step.sck_get_socket_returns 5, Step.g_mutex_lock_returns,
       Step.sck_readline_writes "PI",
       Step.sck_readline_returns { ret := 0, buf := "PING :server\r\n" },
       Step.th_sirc_proc_tests] =
      some { sirc := { fd := 5, buf := "PING :server\r\n", mutex := true }
             worker := WorkerPc.th_sirc_proc
             queue := [{ priority := Priority.G_PRIORITY_HIGH_IDLE,
                         func := IdleFunc.idle_sirc_on_connect }, recv_source]
             calls := []
             lines_read := ["PING :server\r\n"]
             lines_parsed := [] } ∧
    ({ sirc := { fd := 5, buf := "PING :server\r\n", mutex := true }
       worker := WorkerPc.th_sirc_proc
       queue := [{ priority := Priority.G_PRIORITY_HIGH_IDLE,
                   func := IdleFunc.idle_sirc_on_connect }, recv_source]
       calls := []
       lines_read := ["PING :server\r\n"]
       lines_parsed := [] } : System).step senv_example Step.g_mutex_lock_returns = none :=
  ⟨spawned_handoff, rfl,
    ((receive_handoff_backpressure senv_example System.spawned
      { sirc := { fd := 5, buf := "PING :server\r\n", mutex := true }
        worker := WorkerPc.th_sirc_proc
        queue := [{ priority := Priority.G_PRIORITY_HIGH_IDLE,
                    func := IdleFunc.idle_sirc_on_connect }, recv_source]
        calls := []
        lines_read := ["PING :server\r\n"]
        lines_parsed := [] }
      [Step.sck_get_socket_returns 5, Step.g_mutex_lock_returns,
       Step.sck_readline_writes "PI",
       Step.sck_readline_returns { ret := 0, buf := "PING :server\r\n" },
       Step.th_sirc_proc_tests] spawned_handoff rfl).2.2.2 (by decide)).2.2.1⟩

/-! ## The worker and the callbacks one by one -/

/-- C14: one call of `th_sirc_recv` entered with the buffer lock free.  If
`sck_readline` does not return `SRN_ERR`, exactly one high-priority
`idle_sirc_recv` source is added, the function returns `SRN_OK` and the lock
is held on return.  If `sck_readline` returns `SRN_ERR`, exactly one
high-priority `idle_sirc_on_disconnect` source is added, the lock is free on
return and `SRN_ERR` is returned, on which the exit test of `th_sirc_proc`
succeeds and the worker leaves the loop. -/
theorem th_sirc_recv_step (senv : SircEnv) (sirc : SircSession) (rd : Readline)
    (sys : System)
    (hfree : sirc.mutex = false) :
    (rd.ret ≠ senv.SRN_ERR →
      th_sirc_recv senv sirc rd =
        some { ret := senv.SRN_OK
               sirc := { sirc with buf := rd.buf, mutex := true }
               idle := [{ priority := Priority.G_PRIORITY_HIGH_IDLE,
                          func := IdleFunc.idle_sirc_recv }] }) ∧
    (rd.ret = senv.SRN_ERR →
      th_sirc_recv senv sirc rd =
        some { ret := senv.SRN_ERR
               sirc := { sirc with buf := rd.buf, mutex := false }
               idle := [{ priority := Priority.G_PRIORITY_HIGH_IDLE,
                          func := IdleFunc.idle_sirc_on_disconnect }] } ∧
      th_sirc_proc_exits senv senv.SRN_ERR { sirc with buf := rd.buf, mutex := false } = true ∧
      (sys.worker = WorkerPc.th_sirc_proc → sys.sirc = sirc →
        sys.exec senv [Step.g_mutex_lock_returns, Step.sck_readline_returns rd,
            Step.th_sirc_proc_tests] =
          some { sys with
            sirc := { sirc with buf := rd.buf, mutex := false }
            queue := sys.queue ++ [{ priority := Priority.G_PRIORITY_HIGH_IDLE,
                                     func := IdleFunc.idle_sirc_on_disconnect }]
            worker := WorkerPc.exited })) := by
  obtain ⟨fd, buf, mutex⟩ := sirc
  simp only at hfree
  subst hfree
  refine ⟨?_, ?_⟩
  · intro hret
    simp [th_sirc_recv, g_mutex_lock, th_sirc_recv_locked, hret]
  · intro hret
    refine ⟨?_, ?_, ?_⟩
    · simp [th_sirc_recv, g_mutex_lock, th_sirc_recv_locked, g_mutex_unlock, hret]
    · simp [th_sirc_proc_exits]
    · intro hw hs
      obtain ⟨ssirc, worker, queue, calls, lr, lp⟩ := sys
      simp only at hw hs
      subst hw hs
      simp [System.exec, System.step, System.step_at, g_mutex_lock, th_sirc_recv_locked,
        g_mutex_unlock, th_sirc_proc_exits, hret]

/-- Witness for C14: a failed read on a new session. -/
theorem th_sirc_recv_step_witness :
    sirc_new_session.mutex = false ∧
    ({ ret := -1, buf := "" } : Readline).ret = senv_example.SRN_ERR ∧
    th_sirc_recv senv_example sirc_new_session { ret := -1, buf := "" } =
      some { ret := -1
             sirc := { fd := -1, buf := "", mutex := false }
             idle := [{ priority := Priority.G_PRIORITY_HIGH_IDLE,
                        func := IdleFunc.idle_sirc_on_disconnect }] } ∧
    th_sirc_recv senv_example sirc_new_session { ret := 0, buf := "PING :server\r\n" } =
      some { ret := 0
             sirc := { fd := -1, buf := "PING :server\r\n", mutex := true }
             idle := [{ priority := Priority.G_PRIORITY_HIGH_IDLE,
                        func := IdleFunc.idle_sirc_recv }] } :=
  ⟨rfl, rfl,
    ((th_sirc_recv_step senv_example sirc_new_session { ret := -1, buf := "" }
      System.spawned rfl).2 rfl).1,
    (th_sirc_recv_step senv_example sirc_new_session { ret := 0, buf := "PING :server\r\n" }
      System.spawned rfl).1 (by decide)⟩

/-- C15: for every buffer content, `idle_sirc_recv` calls the message handler
`sirc_event_hdr` (once, with the parsed message) exactly when `sirc_parse`
returns `SRN_OK` and makes no call otherwise; in both cases the buffer lock is
free afterwards, so that the next `th_sirc_recv` is not held up; no disconnect
is raised (no call of the disconnect event, no source added); the descriptor
and the buffer are unchanged; and the callback returns `FALSE`. -/
theorem idle_sirc_recv_swallows_parse_failure (senv : SircEnv) (sirc : SircSession)
    (rd : Readline) :
    (idle_sirc_recv senv sirc).calls =
      (if (senv.sirc_parse sirc.buf).1 = senv.SRN_OK then
        [SircCall.sirc_event_hdr (senv.sirc_parse sirc.buf).2]
       else []) ∧
    (idle_sirc_recv senv sirc).sirc.mutex = false ∧
    (th_sirc_recv senv (idle_sirc_recv senv sirc).sirc rd).isSome = true ∧
    SircCall.events_disconnect ∉ (idle_sirc_recv senv sirc).calls ∧
    (idle_sirc_recv senv sirc).idle = [] ∧
    (idle_sirc_recv senv sirc).sirc.fd = sirc.fd ∧
    (idle_sirc_recv senv sirc).sirc.buf = sirc.buf ∧
    (idle_sirc_recv senv sirc).result = FALSE := by
  refine ⟨rfl, rfl, ?_, ?_, rfl, rfl, rfl, rfl⟩
  · simp [th_sirc_recv, g_mutex_lock, idle_sirc_recv, g_mutex_unlock]
  · simp only [idle_sirc_recv]
    split <;> simp

/-- C16: the worker function `th_sirc_connect`.  If `sck_get_socket` returns a
negative descriptor, exactly one high-priority `idle_sirc_on_disconnect`
source is added, no `idle_sirc_on_connect` source is added and `th_sirc_proc`
is not entered (the worker has returned).  Otherwise exactly one high-priority
`idle_sirc_on_connect` source is added and the worker enters `th_sirc_proc`.
`sirc_connect` itself, given a session, a host and a positive port, spawns one
worker and returns without a result, before `sck_get_socket` is called. -/
theorem th_sirc_connect_step (sirc : SircSession) (sock : Int) (host : String) (port : Int)
    (senv : SircEnv) (sys : System) :
    (sock < 0 →
      th_sirc_connect sirc sock =
        { sirc := { sirc with fd := sock }
          idle := [{ priority := Priority.G_PRIORITY_HIGH_IDLE,
                     func := IdleFunc.idle_sirc_on_disconnect }]
          enters_th_sirc_proc := false } ∧
      (sys.worker = WorkerPc.th_sirc_connect →
        sys.step senv (Step.sck_get_socket_returns sock) =
          some { sys with
            sirc := { sys.sirc with fd := sock }
            queue := sys.queue ++ [{ priority := Priority.G_PRIORITY_HIGH_IDLE,
                                     func := IdleFunc.idle_sirc_on_disconnect }]
            worker := WorkerPc.exited })) ∧
    (0 ≤ sock →
      th_sirc_connect sirc sock =
        { sirc := { sirc with fd := sock }
          idle := [{ priority := Priority.G_PRIORITY_HIGH_IDLE,
                     func := IdleFunc.idle_sirc_on_connect }]
          enters_th_sirc_proc := true } ∧
      (sys.worker = WorkerPc.th_sirc_connect →
        sys.step senv (Step.sck_get_socket_returns sock) =
          some { sys with
            sirc := { sys.sirc with fd := sock }
            queue := sys.queue ++ [{ priority := Priority.G_PRIORITY_HIGH_IDLE,
                                     func := IdleFunc.idle_sirc_on_connect }]
            worker := WorkerPc.th_sirc_proc })) ∧
    (0 < port →
      sirc_connect (some sirc) (some host) port = [{ host := host, port := port }]) := by
  refine ⟨?_, ?_, ?_⟩
  · intro hneg
    refine ⟨by simp [th_sirc_connect, hneg], ?_⟩
    intro hw
    obtain ⟨ssirc, worker, queue, calls, lr, lp⟩ := sys
    simp only at hw
    subst hw
    simp [System.step, System.step_at, th_sirc_connect, hneg]
  · intro hpos
    have hnot : ¬ sock < 0 := not_lt.mpr hpos
    refine ⟨by simp [th_sirc_connect, hnot], ?_⟩
    intro hw
    obtain ⟨ssirc, worker, queue, calls, lr, lp⟩ := sys
    simp only at hw
    subst hw
    simp [System.step, System.step_at, th_sirc_connect, hnot]
  · intro hport
    simp [sirc_connect, hport]

/-- Witness for C16: the socket cannot be opened on a new session. -/
theorem th_sirc_connect_step_witness :
    (-1 : Int) < 0 ∧
    th_sirc_connect sirc_new_session (-1) =
      { sirc := { fd := -1, buf := "", mutex := false }
        idle := [{ priority := Priority.G_PRIORITY_HIGH_IDLE,
                   func := IdleFunc.idle_sirc_on_disconnect }]
        enters_th_sirc_proc := false } ∧
    sirc_connect (some sirc_new_session) (some "irc.example.org") 6667 =
      [{ host := "irc.example.org", port := 6667 }] :=
  ⟨by decide,
    ((th_sirc_connect_step sirc_new_session (-1) "irc.example.org" 6667 senv_example
      System.spawned).1 (by decide)).1,
    (th_sirc_connect_step sirc_new_session (-1) "irc.example.org" 6667 senv_example
      System.spawned).2.2 (by decide)⟩

end Srain
